import Mathlib

set_option maxHeartbeats 1000000
set_option maxRecDepth 8192

/-!
Verification of the friend-session and messaging core of tux3/toxcore
(src/toxcore/Messenger.c) against its natural-language specification.

The C state is embedded shallowly: the friend roster is a `List Friend`,
machine integers are `Nat` with explicit `% 2^32` / `% 2^64` where overflow
matters, the transport (NetCrypto / FriendConn) is an explicit environment
record of oracles, and callbacks are modelled as emitted event lists.
-/

namespace Tox

/-! Constants.  `MAX_CRYPTO_DATA_SIZE` and `CRYPTO_MIN_QUEUE_LENGTH` live in
the transport header (net_crypto.h), which is not part of the sources here;
the spec fixes only the derived forms `MAX_FILE_DATA_SIZE =
MAX_CRYPTO_DATA_SIZE - 2` and `MIN_SLOTS_FREE = CRYPTO_MIN_QUEUE_LENGTH / 4`.
The concrete base values below are the upstream toxcore ones; no theorem in
this file depends on the exact numbers. -/

def MAX_CRYPTO_DATA_SIZE : Nat := 1373

def CRYPTO_MIN_QUEUE_LENGTH : Nat := 64

def MAX_FILE_DATA_SIZE : Nat := MAX_CRYPTO_DATA_SIZE - 2

def MIN_SLOTS_FREE : Nat := CRYPTO_MIN_QUEUE_LENGTH / 4

def MAX_CONCURRENT_FILE_PIPES : Nat := 32

def MAX_FRIEND_REQUEST_DATA_SIZE : Nat := 1016

def MAX_NAME_LENGTH : Nat := 128

def FRIENDREQUEST_TIMEOUT : Nat := 5

def FILE_PAUSE_NOT : Nat := 0

def FILE_PAUSE_US : Nat := 1

def FILE_PAUSE_OTHER : Nat := 2

def FILECONTROL_ACCEPT : Nat := 0

def FILECONTROL_PAUSE : Nat := 1

def FILECONTROL_KILL : Nat := 2

def FILECONTROL_SEEK : Nat := 3

def MESSAGE_ACTION : Nat := 1

def U32_MOD : Nat := 2 ^ 32

def U64_MOD : Nat := 2 ^ 64

def UINT64_MAX : Nat := 2 ^ 64 - 1

/-- Wrapping uint64 subtraction, as performed by C unsigned arithmetic on
`uint64_t` operands (both assumed already reduced below `2^64`). -/
def u64sub (a b : Nat) : Nat := (a + (U64_MOD - b % U64_MOD)) % U64_MOD

/-! Data model (Messenger.h structures, reconstructed from their uses in
Messenger.c and the spec's data-model section). -/

/-- File-transfer status (FILESTATUS_NONE .. FILESTATUS_FINISHED). -/
inductive FileStatus where
  | fsNone
  | notAccepted
  | transferring
  | finished
deriving DecidableEq, Repr

/-- One `struct File_Transfers` slot.  `paused` is the C bitmask
(`FILE_PAUSE_US = 1`, `FILE_PAUSE_OTHER = 2`). -/
structure FileTransfer where
  status : FileStatus
  size : Nat
  transferred : Nat
  requested : Nat
  slots_allocated : Nat
  paused : Nat
  last_packet_number : Nat
deriving DecidableEq, Repr

/-- A zeroed `struct File_Transfers` (calloc / memset 0). -/
def emptyFT : FileTransfer :=
  { status := .fsNone, size := 0, transferred := 0, requested := 0
    slots_allocated := 0, paused := 0, last_packet_number := 0 }

instance : Inhabited FileTransfer := ⟨emptyFT⟩

/-- One node of the per-friend receipt queue (`struct Receipts`). -/
structure Receipt where
  packet_num : Nat
  msg_id : Nat
deriving DecidableEq, Repr

/-- Device status (NO_FDEV, FDEV_PENDING, FDEV_CONFIRMED, FDEV_ONLINE). -/
inductive FDevStatus where
  | noFDev
  | pending
  | confirmed
  | online
deriving DecidableEq, Repr

/-- One `F_Device` entry of a friend's device list. -/
structure Device where
  status : FDevStatus
  real_pk : List Nat
  friendcon_id : Nat
deriving DecidableEq, Repr

/-- Friend status (NOFRIEND, FRIEND_ADDED, FRIEND_REQUESTED,
FRIEND_CONFIRMED, FRIEND_ONLINE). -/
inductive FriendStatus where
  | noFriend
  | added
  | requested
  | confirmed
  | online
deriving DecidableEq, Repr

/-- Numeric value of a friend status, matching the C enum order, used for
the `>= FRIEND_CONFIRMED` comparisons. -/
def statusVal : FriendStatus → Nat
  | .noFriend => 0
  | .added => 1
  | .requested => 2
  | .confirmed => 3
  | .online => 4

/-- Reported connection kind (CONNECTION_NONE, CONNECTION_TCP,
CONNECTION_UDP, CONNECTION_UNKNOWN). -/
inductive ConnKind where
  | noConn
  | tcp
  | udp
  | unknown
deriving DecidableEq, Repr

/-- One roster entry (`Friend` in Messenger.h), restricted to the fields the
verified operations touch. -/
structure Friend where
  status : FriendStatus
  info : List Nat
  info_size : Nat
  friendrequest_nospam : Nat
  friendrequest_lastsent : Nat
  friendrequest_timeout : Nat
  statusmessage_length : Nat
  userstatus : Nat
  is_typing : Nat
  message_id : Nat
  receipts : List Receipt
  file_sending : List FileTransfer
  file_receiving : List FileTransfer
  num_sending_files : Nat
  last_connection_udp_tcp : ConnKind
  dev_list : List Device
deriving DecidableEq, Repr

/-- A zeroed `Friend` slot (memset 0): status NOFRIEND, empty receipt queue,
all 32 file slots zeroed, empty device list. -/
def emptyFriend : Friend :=
  { status := .noFriend, info := [], info_size := 0, friendrequest_nospam := 0
    friendrequest_lastsent := 0, friendrequest_timeout := 0
    statusmessage_length := 0, userstatus := 0, is_typing := 0
    message_id := 0, receipts := []
    file_sending := List.replicate MAX_CONCURRENT_FILE_PIPES emptyFT
    file_receiving := List.replicate MAX_CONCURRENT_FILE_PIPES emptyFT
    num_sending_files := 0, last_connection_udp_tcp := .noConn, dev_list := [] }

instance : Inhabited Friend := ⟨emptyFriend⟩

/-- Embedding of `friend_not_valid` (Messenger.c:44): the index is valid
exactly when it is within `numfriends` and the slot status is not NOFRIEND.
The roster is the list `fl`, whose length plays the role of `numfriends`. -/
def friend_not_valid (fl : List Friend) (n : Nat) : Bool :=
  decide (fl.length ≤ n) || ((fl.getD n emptyFriend).status == .noFriend)

/-- Embedding of `m_friend_exists` (Messenger.c:645). -/
def m_friend_exists (fl : List Friend) (n : Nat) : Bool :=
  ! friend_not_valid fl n

/-- Embedding of `getfriend_id` (Messenger.c:101): first roster slot with
nonzero status one of whose device keys equals `real_pk`. -/
def getfriend_id (fl : List Friend) (real_pk : List Nat) : Option Nat :=
  fl.findIdx? fun f =>
    (f.status != .noFriend) && f.dev_list.any fun d => d.real_pk == real_pk

/-! Receipt queue (Messenger.c:487-571). -/

/-- Embedding of `add_receipt` (Messenger.c:505): append one
`(packet_num, msg_id)` node at the queue tail.  Returns the C result
(`-1` on invalid friend, `0` on success) with the updated roster. -/
def add_receipt (fl : List Friend) (n packet_num msg_id : Nat) :
    Int × List Friend :=
  if friend_not_valid fl n then (-1, fl)
  else
    let fr := fl.getD n emptyFriend
    (0, fl.set n { fr with receipts := fr.receipts ++ [⟨packet_num, msg_id⟩] })

/-- The pop loop of `do_receipts` (Messenger.c:553-565): pop nodes while the
transport acknowledges their packet number, collecting the `read_receipt`
callback arguments in order; stop at the first unacknowledged node.
`acked` models `friend_received_packet` returning 0. -/
def do_receipts_loop (acked : Nat → Bool) :
    List Receipt → List Receipt × List Nat
  | [] => ([], [])
  | r :: rest =>
    if acked r.packet_num then
      let (q, evs) := do_receipts_loop acked rest
      (q, r.msg_id :: evs)
    else (r :: rest, [])

/-- Embedding of `do_receipts` (Messenger.c:544): returns the updated roster
and the list of `read_receipt` callback message ids, in invocation order. -/
def do_receipts (acked : Nat → Bool) (fl : List Friend) (n : Nat) :
    List Friend × List Nat :=
  if friend_not_valid fl n then (fl, [])
  else
    let fr := fl.getD n emptyFriend
    let (q, evs) := do_receipts_loop acked fr.receipts
    (fl.set n { fr with receipts := q }, evs)

/-! Message sending (Messenger.c:662-720). -/

/-- Transport environment for `m_send_message_generic`: the result of
`write_cryptpacket` on the crypt connection of device `i` (`-1` means the
send queue rejected the packet, otherwise the packet number). -/
structure SendEnv where
  write_result : Nat → Int

/-- The device fan-out loop of `m_send_message_generic` (Messenger.c:693-705):
writes the packet to every FDEV_ONLINE device; a failing write never
overwrites an earlier successful packet number. -/
def send_dev_loop (env : SendEnv) : List Device → Nat → Int → Int
  | [], _, packet_num => packet_num
  | d :: ds, i, packet_num =>
    if d.status == .online then
      let this_packet_num := env.write_result i
      if this_packet_num == -1 && packet_num != -1 then
        send_dev_loop env ds (i + 1) packet_num
      else
        send_dev_loop env ds (i + 1) this_packet_num
    else
      send_dev_loop env ds (i + 1) packet_num

/-- Embedding of `m_send_message_generic` (Messenger.c:662).  Returns the C
result code (0 success, -1 invalid friend, -2 too large, -3 not online,
-4 queue full, -5 bad type), the updated roster, and the message id handed
back through the `message_id` out-parameter. -/
def m_send_message_generic (env : SendEnv) (fl : List Friend)
    (n type length : Nat) : Int × List Friend × Option Nat :=
  if type > MESSAGE_ACTION then (-5, fl, none)
  else if friend_not_valid fl n then (-1, fl, none)
  else if length ≥ MAX_CRYPTO_DATA_SIZE then (-2, fl, none)
  else
    let fr := fl.getD n emptyFriend
    if fr.status != .online then (-3, fl, none)
    else
      let packet_num := send_dev_loop env fr.dev_list 0 (-1)
      if packet_num == -1 then (-4, fl, none)
      else
        let msg_id := (fr.message_id + 1) % U32_MOD
        let fl1 := fl.set n { fr with message_id := msg_id }
        let fl2 := (add_receipt fl1 n (packet_num.toNat % U32_MOD) msg_id).2
        (0, fl2, some msg_id)

/-! Roster management (Messenger.c:167-454, 578-613). -/

/-- Environment for friend creation: whether `new_tox_conn` reports the new
connection as already connected, the connection handle it returns, and the
oracles of `m_addfriend` (`public_key_valid` from the crypto library, and the
local identity read from `net_crypto`). -/
structure AddEnv where
  conn_connected : Bool
  new_conn_id : Nat
  public_key_valid : List Nat → Bool
  self_public_key : List Nat
  self_nospam : Nat

/-- The fresh roster slot written by `init_new_friend` (Messenger.c:246-269):
zeroed fields, one confirmed device holding `real_pk`; the device goes
straight to FDEV_ONLINE (and an ONLINE packet is sent) when the connection
is already up. -/
def mkNewFriend (env : AddEnv) (real_pk : List Nat) (status : FriendStatus) :
    Friend :=
  { emptyFriend with
    status := status
    friendrequest_lastsent := 0
    statusmessage_length := 0
    userstatus := 0
    is_typing := 0
    message_id := 0
    dev_list := [{ status := if env.conn_connected then .online else .confirmed
                   real_pk := real_pk
                   friendcon_id := env.new_conn_id }] }

/-- The slot scan of `init_new_friend` (Messenger.c:240-241): the first
index at or after `i` holding a NOFRIEND slot, if any. -/
def scan_free : List Friend → Nat → Option Nat
  | [], _ => none
  | f :: rest, i =>
    if f.status == .noFriend then some i else scan_free rest (i + 1)

/-- Embedding of `init_new_friend` (Messenger.c:222): grow the list by one
zeroed slot, then scan from index 0 for the first NOFRIEND slot and install
the friend there; `numfriends` grows only when the scan reaches the fresh
trailing slot (the `none` case below, since a grown zeroed slot is always
free).  Allocation failure (`FAERR_NOMEM`) is outside the model. -/
def init_new_friend (env : AddEnv) (fl : List Friend) (real_pk : List Nat)
    (status : FriendStatus) : List Friend × Nat :=
  let f := mkNewFriend env real_pk status
  match scan_free fl 0 with
  | some i => (fl.set i f, i)
  | none => (fl ++ [f], fl.length)

/-- Trailing-slot shrink of `m_delfriend` (Messenger.c:602-607): drop the
free slots at the tail of the roster. -/
def dropTrailingFree : List Friend → List Friend
  | [] => []
  | f :: rest =>
    let r := dropTrailingFree rest
    if r.isEmpty && (f.status == .noFriend) then [] else f :: r

/-- Embedding of `m_delfriend` (Messenger.c:578): on a valid index, clear the
receipts, zero the slot and shrink the roster from the tail (the OFFLINE
packet and connection teardown are external effects).  `none` models the C
result -1 on an invalid index. -/
def m_delfriend (fl : List Friend) (n : Nat) : Option (List Friend) :=
  if friend_not_valid fl n then none
  else some (dropTrailingFree (fl.set n emptyFriend))

/-! Address codec (Messenger.c:164-191) and `m_addfriend`
(Messenger.c:336-387). -/

/-- The accumulation loop of `address_checksum` (Messenger.c:173-174):
`checksum[i % 2] ^= address[i]`, the parity flag tracking `i % 2`. -/
def cs_go : List Nat → Bool → Nat × Nat → Nat × Nat
  | [], _, acc => acc
  | x :: xs, parity, acc =>
    cs_go xs (!parity)
      (if parity then (acc.1, acc.2 ^^^ x) else (acc.1 ^^^ x, acc.2))

/-- Embedding of `address_checksum` (Messenger.c:167) over the given byte
span, returned as the two checksum bytes. -/
def address_checksum (bytes : List Nat) : Nat × Nat :=
  cs_go bytes false (0, 0)

/-- The checksum validation performed by `m_addfriend` (Messenger.c:347-351):
recompute the XOR fold of the first 36 address bytes and compare it with the
stored trailing two bytes. -/
def address_checksum_ok (address : List Nat) : Bool :=
  address_checksum (address.take 36) == (address.getD 36 0, address.getD 37 0)

/-- Little-endian serialization of a `uint32_t`, as `memcpy` produces on the
little-endian targets toxcore runs on. -/
def u32_bytes (n : Nat) : List Nat :=
  [n % 256, n / 2 ^ 8 % 256, n / 2 ^ 16 % 256, n / 2 ^ 24 % 256]

/-- The nospam field read out of an address (Messenger.c:366), bytes 32-35
as a little-endian `uint32_t`. -/
def nospam_of (address : List Nat) : Nat :=
  address.getD 32 0 + 2 ^ 8 * address.getD 33 0 + 2 ^ 16 * address.getD 34 0
    + 2 ^ 24 * address.getD 35 0

/-- Embedding of `getaddress` (Messenger.c:184): public key, nospam, then the
checksum of those 36 bytes. -/
def encode_address (pk : List Nat) (nospam : Nat) : List Nat :=
  let body := pk ++ u32_bytes nospam
  let checksum := address_checksum body
  body ++ [checksum.1, checksum.2]

/-- Result of `m_addfriend`, with the spec's error tags in place of the
`FAERR_*` numeric codes (`FAERR_NOMEM` is outside the model). -/
inductive AddFriendResult where
  | index (i : Nat)
  | tooLong
  | noMessage
  | ownKey
  | badChecksum
  | alreadySent
  | setNewNospam
deriving DecidableEq, Repr

/-- Embedding of `m_addfriend` (Messenger.c:336).  Checks run in source
order: length, key validity (which reports `badChecksum`, as in the C),
checksum, empty message, own key; then either the existing-friend nospam
handling or `init_new_friend` followed by the request-info setup. -/
def m_addfriend (env : AddEnv) (fl : List Friend) (address data : List Nat) :
    AddFriendResult × List Friend :=
  if data.length > MAX_FRIEND_REQUEST_DATA_SIZE then (.tooLong, fl)
  else
    let real_pk := address.take 32
    if ! env.public_key_valid real_pk then (.badChecksum, fl)
    else if ! address_checksum_ok address then (.badChecksum, fl)
    else if data.length < 1 then (.noMessage, fl)
    else if real_pk == env.self_public_key then (.ownKey, fl)
    else
      match getfriend_id fl real_pk with
      | some friend_id =>
        let fr := fl.getD friend_id emptyFriend
        if statusVal fr.status ≥ statusVal .confirmed then (.alreadySent, fl)
        else if fr.friendrequest_nospam == nospam_of address then
          (.alreadySent, fl)
        else
          (.setNewNospam,
           fl.set friend_id { fr with friendrequest_nospam := nospam_of address })
      | none =>
        let (fl1, ret) := init_new_friend env fl real_pk .added
        let fr := fl1.getD ret emptyFriend
        (.index ret,
         fl1.set ret { fr with
           friendrequest_timeout := FRIENDREQUEST_TIMEOUT
           info := data
           info_size := data.length
           friendrequest_nospam := nospam_of address })

/-- Flip bit `b` of byte `i` of a byte list. -/
def flipBit (bytes : List Nat) (i b : Nat) : List Nat :=
  bytes.set i (bytes.getD i 0 ^^^ 2 ^ b)

/-! File-transfer control (Messenger.c:1403-1548). -/

/-- Environment for control-packet sends: whether
`send_file_control_packet` (a reliable `write_cryptpacket`) succeeds. -/
structure ControlEnv where
  send_ok : Bool

/-- Embedding of `file_seek` (Messenger.c:1496).  Result codes as in the C:
0 success, -1 invalid friend, -2 not online, -3 bad file number, -4 not a
receiving transfer, -5 wrong state, -6 bad position, -8 send failure.  On
success only `transferred` is updated. -/
def file_seek (env : ControlEnv) (fl : List Friend) (n filenumber position : Nat) :
    Int × List Friend :=
  if friend_not_valid fl n then (-1, fl)
  else
    let fr := fl.getD n emptyFriend
    if fr.status != .online then (-2, fl)
    else if filenumber < 2 ^ 16 then (-4, fl)
    else
      let temp_filenum := filenumber / 2 ^ 16 - 1
      if temp_filenum ≥ MAX_CONCURRENT_FILE_PIPES then (-3, fl)
      else
        let ft := fr.file_receiving.getD temp_filenum emptyFT
        if ft.status == .fsNone then (-3, fl)
        else if ft.status != .notAccepted then (-5, fl)
        else if position ≥ ft.size then (-6, fl)
        else if env.send_ok then
          (0, fl.set n { fr with
             file_receiving :=
               fr.file_receiving.set temp_filenum { ft with transferred := position } })
        else (-8, fl)

/-- Embedding of `file_control` (Messenger.c:1403).  Result codes as in the
C: 0 success, -1 invalid friend, -2 not online, -3 bad file number, -4 bad
control, -5 already paused, -6 paused only by the other side, -7 not paused,
-8 send failure. -/
def file_control (env : ControlEnv) (fl : List Friend) (n filenumber control : Nat) :
    Int × List Friend :=
  if friend_not_valid fl n then (-1, fl)
  else
    let fr := fl.getD n emptyFriend
    if fr.status != .online then (-2, fl)
    else
      let send_receive := filenumber ≥ 2 ^ 16
      let temp_filenum := if send_receive then filenumber / 2 ^ 16 - 1 else filenumber
      if temp_filenum ≥ MAX_CONCURRENT_FILE_PIPES then (-3, fl)
      else
        let ft := (if send_receive then fr.file_receiving else fr.file_sending).getD
          temp_filenum emptyFT
        if ft.status == .fsNone then (-3, fl)
        else if control > FILECONTROL_KILL then (-4, fl)
        else if control == FILECONTROL_PAUSE &&
            (ft.paused &&& FILE_PAUSE_US != 0 || ft.status != .transferring) then
          (-5, fl)
        else if control == FILECONTROL_ACCEPT &&
            ft.status == .transferring && ft.paused &&& FILE_PAUSE_US == 0 then
          if ft.paused &&& FILE_PAUSE_OTHER != 0 then (-6, fl) else (-7, fl)
        else if control == FILECONTROL_ACCEPT && ft.status != .transferring &&
            ft.status != .notAccepted then
          (-7, fl)
        else if control == FILECONTROL_ACCEPT && ft.status != .transferring &&
            !send_receive then
          (-6, fl)
        else if env.send_ok then
          let ft' :=
            if control == FILECONTROL_KILL then { ft with status := .fsNone }
            else if control == FILECONTROL_PAUSE then
              { ft with paused := ft.paused ||| FILE_PAUSE_US }
            else if control == FILECONTROL_ACCEPT then
              { ft with status := .transferring
                        paused := if ft.paused &&& FILE_PAUSE_US != 0 then
                            ft.paused ^^^ FILE_PAUSE_US
                          else ft.paused }
            else ft
          let fr' :=
            if send_receive then
              { fr with file_receiving := fr.file_receiving.set temp_filenum ft' }
            else
              { fr with
                file_sending := fr.file_sending.set temp_filenum ft'
                num_sending_files :=
                  if control == FILECONTROL_KILL then fr.num_sending_files - 1
                  else fr.num_sending_files }
          (0, fl.set n fr')
        else (-8, fl)

/-! Chunk-request engine (Messenger.c:1584-1751). -/

/-- Callback and packet events observable from the chunk-request loop:
invocations of the `file_reqchunk` callback, and the zero-length FILE_DATA
packet emitted for empty files. -/
inductive FtEvent where
  | reqchunk (file_num position length : Nat)
  | zeroData (file_num : Nat)
deriving DecidableEq, Repr

/-- Transport environment for one `do_reqchunk_filecb` run:
`crypto_num_free_sendqueue_slots`, `max_speed_reached`,
`cryptpacket_received` (true when the packet was acknowledged), whether
`write_cryptpacket` accepts a FILE_DATA packet, and the packet number it
would return. -/
structure ChunkEnv where
  free_slots : Nat
  max_speed : Bool
  acked : Nat → Bool
  send_ok : Bool
  next_packet_num : Nat

/-- Embedding of the transfer-level body of `file_data` (Messenger.c:1596-
1640); the friend-validity, online and file-number checks of the full
function are established by the caller (`do_reqchunk_filecb` runs on a valid
online friend and an in-range slot).  Returns the C result code and the
updated transfer. -/
def file_data_ft (env : ChunkEnv) (ft : FileTransfer) (position length : Nat) :
    Int × FileTransfer :=
  if ft.status != .transferring then (-4, ft)
  else if length > MAX_FILE_DATA_SIZE then (-5, ft)
  else if u64sub ft.size ft.transferred < length then (-5, ft)
  else if ft.size != UINT64_MAX && length != MAX_FILE_DATA_SIZE &&
      ft.transferred + length != ft.size then
    (-5, ft)
  else if position != ft.transferred ||
      (ft.requested ≤ position && ft.size != 0) then
    (-7, ft)
  else if env.free_slots < MIN_SLOTS_FREE then (-6, ft)
  else if env.send_ok then
    let ft1 := { ft with
      transferred := (ft.transferred + length) % U64_MOD
      slots_allocated := if ft.slots_allocated != 0 then ft.slots_allocated - 1
        else ft.slots_allocated }
    let ft2 :=
      if length != MAX_FILE_DATA_SIZE || ft1.size == ft1.transferred then
        { ft1 with status := .finished, last_packet_number := env.next_packet_num }
      else ft1
    (0, ft2)
  else (-6, ft)

/-- The inner `while` of `do_reqchunk_filecb` (Messenger.c:1711-1746) on
transfer slot `i`: as long as the transfer is Transferring and unpaused,
check `max_speed_reached` (zeroing the budget), stop on an empty budget,
send the single zero-length packet for an empty file, stop when everything
is requested, else fire `file_reqchunk` for the next chunk.  Returns the
transfer, the remaining budget and the emitted events. -/
def reqchunk_while (env : ChunkEnv) (i : Nat) :
    FileTransfer → Nat → FileTransfer × Nat × List FtEvent
  | ft, free_slots =>
    if !(ft.status == .transferring && ft.paused == FILE_PAUSE_NOT) then
      (ft, free_slots, [])
    else if env.max_speed then (ft, 0, [])
    else
      match free_slots with
      | 0 => (ft, 0, [])
      | f + 1 =>
        if ft.size == 0 then
          let (r, ft') := file_data_ft env ft 0 0
          (ft', f + 1, if r == 0 then [.zeroData i] else [])
        else if ft.size == ft.requested then (ft, f + 1, [])
        else
          let length :=
            if u64sub ft.size ft.requested < MAX_FILE_DATA_SIZE then
              u64sub ft.size ft.requested
            else MAX_FILE_DATA_SIZE
          let position := ft.requested
          let ft1 := { ft with
            slots_allocated := ft.slots_allocated + 1
            requested := (ft.requested + length) % U64_MOD }
          let (ft2, free2, evs) := reqchunk_while env i ft1 f
          (ft2, free2, .reqchunk i position length :: evs)

/-- The outer `for` of `do_reqchunk_filecb` (Messenger.c:1686-1750) from slot
`i` on, carrying the sending array, `num_sending_files`, the budget and the
remaining-active counter `num`; each non-free slot is reaped when Finished
and acknowledged, has its `slots_allocated` charged against the budget, and
then runs the inner loop.  The loop stops after the last active slot.
`count` is the number of slots still to visit
(`MAX_CONCURRENT_FILE_PIPES - i`, kept as an explicit structural-recursion
argument for the C loop bound `i < MAX_CONCURRENT_FILE_PIPES`). -/
def reqchunk_outer (env : ChunkEnv) :
    Nat → List FileTransfer → Nat → Nat → Nat → Nat →
      List FileTransfer × Nat × List FtEvent
  | 0, fs, nsf, _, _, _ => (fs, nsf, [])
  | count + 1, fs, nsf, i, free_slots, num =>
    let ft := fs.getD i emptyFT
    let step :=
      if ft.status != .fsNone then
        let reap :=
          if ft.status == .finished && env.acked ft.last_packet_number then
            ({ ft with status := .fsNone }, nsf - 1,
             [FtEvent.reqchunk i ft.transferred 0])
          else (ft, nsf, ([] : List FtEvent))
        let free' :=
          if reap.1.slots_allocated > free_slots then 0
          else free_slots - reap.1.slots_allocated
        (reap.1, reap.2.1, num - 1, free', reap.2.2)
      else (ft, nsf, num, free_slots, ([] : List FtEvent))
    let (ft2, free2, evs2) := reqchunk_while env i step.1 step.2.2.2.1
    let fs2 := fs.set i ft2
    if step.2.2.1 == 0 then (fs2, step.2.1, step.2.2.2.2 ++ evs2)
    else
      let (fs3, nsf3, evs3) :=
        reqchunk_outer env count fs2 step.2.1 (i + 1) free2 step.2.2.1
      (fs3, nsf3, step.2.2.2.2 ++ evs2 ++ evs3)

/-- Embedding of `do_reqchunk_filecb` (Messenger.c:1670): nothing happens
without active sending files; otherwise the budget starts at
`free_slots - MIN_SLOTS_FREE` (floored at 0) and the outer loop runs from
slot 0.  Returns the updated sending array, the updated
`num_sending_files`, and the events in order. -/
def do_reqchunk_filecb (env : ChunkEnv) (fr : Friend) : Friend × List FtEvent :=
  if fr.num_sending_files == 0 then (fr, [])
  else
    let free0 :=
      if env.free_slots < MIN_SLOTS_FREE then 0
      else env.free_slots - MIN_SLOTS_FREE
    let (fs, nsf, evs) :=
      reqchunk_outer env MAX_CONCURRENT_FILE_PIPES fr.file_sending
        fr.num_sending_files 0 free0 fr.num_sending_files
    ({ fr with file_sending := fs, num_sending_files := nsf }, evs)

/-- Number of active (non-free) slots in a sending array; the value the
maintained counter `num_sending_files` tracks. -/
def countActive (fs : List FileTransfer) : Nat :=
  (fs.filter fun ft => ft.status != .fsNone).length

/-! Connection-kind reporting (Messenger.c:615-643, 1070-1093). -/

/-- Transport status for one friend connection, as reported by
`crypto_connection_status`. -/
structure StatusEnv where
  direct_connected : Bool
  num_online_relays : Nat

/-- Embedding of `m_get_friend_connectionstatus` (Messenger.c:615): `none`
models the C result -1 on an invalid friend. -/
def m_get_friend_connectionstatus (env : StatusEnv) (fl : List Friend)
    (n : Nat) : Option ConnKind :=
  if friend_not_valid fl n then none
  else if (fl.getD n emptyFriend).status == .online then
    if env.direct_connected then some .udp
    else if env.num_online_relays != 0 then some .tcp
    else some .unknown
  else some .noConn

/-- Embedding of `check_friend_tcp_udp` (Messenger.c:1070): returns the
updated roster and the kind passed to the `connection_status` callback when
it fires. -/
def check_friend_tcp_udp (env : StatusEnv) (fl : List Friend) (n : Nat) :
    List Friend × Option ConnKind :=
  let last := (fl.getD n emptyFriend).last_connection_udp_tcp
  match m_get_friend_connectionstatus env fl n with
  | none => (fl, none)
  | some ret0 =>
    if ret0 == .unknown && last == .udp then (fl, none)
    else
      let ret := if ret0 == .unknown then .tcp else ret0
      let ev := if last != ret then some ret else none
      (fl.set n { fl.getD n emptyFriend with last_connection_udp_tcp := ret }, ev)

/-! Spec-side definitions.  Each definition below follows the wording of a
spec claim (not the C code); the theorems compare them with the embeddings
above. -/

/-- Number of chunk requests outstanding over all active transfers, read off
the claim wording for the chunk-request budget: the sum of every
non-free slot's `slots_allocated`. -/
def claim_active_slots (fs : List FileTransfer) : Nat :=
  (fs.filter fun ft => ft.status != .fsNone).foldl
    (fun a ft => a + ft.slots_allocated) 0

/-- The chunk-request budget exactly as the claim words it: start from
`max (0, transport_free_slots - MIN_SLOTS_FREE)` and subtract every active
transfer's `slots_allocated` before any transfer is serviced (`Nat`
subtraction is the floored form). -/
def claim_budget (env : ChunkEnv) (fr : Friend) : Nat :=
  env.free_slots - MIN_SLOTS_FREE - claim_active_slots fr.file_sending

/-- The claim's per-transfer request loop, producing the emitted events, the
final `requested` and the remaining budget: while the budget is positive and
max speed is not signalled, an empty file gets one zero-length data packet,
a fully-requested file stops, and otherwise a chunk of
`min (MAX_FILE_DATA_SIZE, size - requested)` is requested at `requested`. -/
def claim_while_evs (env : ChunkEnv) (i : Nat) :
    Nat → Nat → Nat → List FtEvent × Nat × Nat
  | requested, _, 0 => ([], requested, 0)
  | requested, size, f + 1 =>
    if env.max_speed then ([], requested, f + 1)
    else if size = 0 then ([.zeroData i], requested, f + 1)
    else if requested = size then ([], requested, f + 1)
    else
      let length := min MAX_FILE_DATA_SIZE (size - requested)
      let (evs, r', f') := claim_while_evs env i (requested + length) size f
      (.reqchunk i requested length :: evs, r', f')

/-- The claim's outer loop: after the up-front budget computation, every
Transferring and unpaused transfer runs the request loop, the budget
threading across transfers. -/
def claim_outer (env : ChunkEnv) :
    List FileTransfer → Nat → Nat → List FtEvent
  | [], _, _ => []
  | ft :: rest, i, free =>
    if ft.status == .transferring && ft.paused == FILE_PAUSE_NOT then
      let (evs, _, free') := claim_while_evs env i ft.requested ft.size free
      evs ++ claim_outer env rest (i + 1) free'
    else claim_outer env rest (i + 1) free

/-- The per-friend chunk-request pass exactly as the claim states it
(budget with all active `slots_allocated` subtracted up front, then the
per-transfer loops); returns the emitted event trace. -/
def do_reqchunk_claim (env : ChunkEnv) (fr : Friend) : List FtEvent :=
  claim_outer env fr.file_sending 0 (claim_budget env fr)

/-- The amended per-transfer request loop, shared semantics with the claim
except where the code's behaviour forces otherwise: an empty file goes
through `file_data_ft` (its packet appears only when the transport accepts
it), and a max-speed signal exhausts the budget. -/
def amended_while (env : ChunkEnv) (i : Nat) :
    FileTransfer → Nat → FileTransfer × Nat × List FtEvent
  | ft, 0 => (ft, 0, [])
  | ft, f + 1 =>
    if env.max_speed then (ft, 0, [])
    else if ft.size = 0 then
      let fd := file_data_ft env ft 0 0
      (fd.2, f + 1, if fd.1 == 0 then [.zeroData i] else [])
    else if ft.requested = ft.size then (ft, f + 1, [])
    else
      let length := min MAX_FILE_DATA_SIZE (u64sub ft.size ft.requested)
      let (ft', free', evs) :=
        amended_while env i
          { ft with
            slots_allocated := ft.slots_allocated + 1
            requested := (ft.requested + length) % U64_MOD } f
      (ft', free', .reqchunk i ft.requested length :: evs)

/-- The amended outer loop: visiting slots in order, each active slot's
`slots_allocated` is deducted from the budget at its turn (floored at 0),
and each Transferring unpaused slot then runs the request loop. -/
def amended_outer (env : ChunkEnv) :
    List FileTransfer → Nat → Nat → List FileTransfer × List FtEvent
  | [], _, _ => ([], [])
  | ft :: rest, i, free =>
    let free1 := if ft.status != .fsNone then free - ft.slots_allocated else free
    if ft.status == .transferring && ft.paused == FILE_PAUSE_NOT then
      let (ft', free2, evs) := amended_while env i ft free1
      let (rest', evs') := amended_outer env rest (i + 1) free2
      (ft' :: rest', evs ++ evs')
    else
      let (rest', evs') := amended_outer env rest (i + 1) free1
      (ft :: rest', evs')

/-- The chunk-request pass as the amended claim describes it: budget
`transport_free_slots - MIN_SLOTS_FREE` floored at 0, per-slot deduction at
visit time, per-transfer request loops in slot order. -/
def do_reqchunk_amended (env : ChunkEnv) (fr : Friend) : Friend × List FtEvent :=
  if fr.num_sending_files == 0 then (fr, [])
  else
    let (fs, evs) :=
      amended_outer env fr.file_sending 0 (env.free_slots - MIN_SLOTS_FREE)
    ({ fr with file_sending := fs }, evs)

/-- Connection-kind check exactly as the claim words it: compute the kind
from (direct, relays); when the computed kind is Unknown and the last
reported kind was Udp, report Tcp instead; invoke the callback exactly when
the reported kind differs from the last reported kind. -/
def check_tcp_udp_claim (env : StatusEnv) (fl : List Friend) (n : Nat) :
    List Friend × Option ConnKind :=
  match m_get_friend_connectionstatus env fl n with
  | none => (fl, none)
  | some computed =>
    let last := (fl.getD n emptyFriend).last_connection_udp_tcp
    let reported :=
      if computed == .unknown && last == .udp then ConnKind.tcp else computed
    (fl.set n { fl.getD n emptyFriend with last_connection_udp_tcp := reported },
     if reported != last then some reported else none)

/-- The amended reporting rule: a computed Unknown with a last-reported Udp
makes the check return early, leaving the memoized kind and firing no
callback; any other computed Unknown is reported as Tcp. -/
def reported_kind (computed last : ConnKind) : Option ConnKind :=
  match computed, last with
  | .unknown, .udp => none
  | .unknown, _ => some .tcp
  | k, _ => some k

/-- Connection-kind check as the amended claim describes it, built on
`reported_kind`. -/
def check_tcp_udp_amended (env : StatusEnv) (fl : List Friend) (n : Nat) :
    List Friend × Option ConnKind :=
  match m_get_friend_connectionstatus env fl n with
  | none => (fl, none)
  | some computed =>
    let last := (fl.getD n emptyFriend).last_connection_udp_tcp
    match reported_kind computed last with
    | none => (fl, none)
    | some r =>
      (fl.set n { fl.getD n emptyFriend with last_connection_udp_tcp := r },
       if r = last then none else some r)

/-! Concrete fixtures used by the message-id trace theorems: one online
friend with a single online device, and a transport that accepts every
packet (as packet number 5). -/

/-- A transport that always accepts a message packet. -/
def env0 : SendEnv := ⟨fun _ => 5⟩

/-- One online friend with a single online device and a fresh
`message_id`. -/
def fr0 : Friend :=
  { emptyFriend with status := .online
                     dev_list := [{ status := .online, real_pk := [], friendcon_id := 0 }] }

/-- The singleton roster holding `fr0`. -/
def fl0 : List Friend := [fr0]

/-- The roster after one send of a one-byte normal message to friend 0. -/
def send_step (env : SendEnv) (fl : List Friend) : List Friend :=
  (m_send_message_generic env fl 0 0 1).2.1

/-- The message id returned by one send of a one-byte normal message to
friend 0. -/
def send_ret (env : SendEnv) (fl : List Friend) : Option Nat :=
  (m_send_message_generic env fl 0 0 1).2.2

/-- XOR a mask into one component of a checksum pair: the odd component when
the flag is true, the even one otherwise. -/
def xorComp (b : Bool) (m : Nat) (c : Nat × Nat) : Nat × Nat :=
  if b then (c.1, c.2 ^^^ m) else (c.1 ^^^ m, c.2)

/-- The parity flag `cs_go` carries when it reaches offset `i`, starting
from flag `p`. -/
def parityAt : Bool → Nat → Bool
  | p, 0 => p
  | p, i + 1 => parityAt (!p) i

/-! Concrete fixtures used by counterexample and witness theorems. -/

/-- A not-yet-accepted receiving transfer of size 10. -/
def ftC2 : FileTransfer := { emptyFT with status := .notAccepted, size := 10 }

/-- An online friend whose receiving slot 0 holds `ftC2`. -/
def frC2 : Friend :=
  { emptyFriend with
    status := .online,
    file_receiving := (List.replicate MAX_CONCURRENT_FILE_PIPES emptyFT).set 0 ftC2 }

/-- The singleton roster holding `frC2`. -/
def flC2 : List Friend := [frC2]

/-- A transport that accepts control packets. -/
def envC2 : ControlEnv := ⟨true⟩

/-- An unpaused transferring outbound transfer of size 10000 with no
outstanding chunk requests. -/
def ftA : FileTransfer := { emptyFT with status := .transferring, size := 10000 }

/-- A transferring outbound transfer paused by us with five outstanding
chunk requests. -/
def ftB : FileTransfer :=
  { emptyFT with
    status := .transferring,
    size := 10000,
    paused := FILE_PAUSE_US,
    slots_allocated := 5 }

/-- An online friend with two active sending transfers, `ftA` in slot 0 and
`ftB` in slot 1. -/
def frC1 : Friend :=
  { emptyFriend with
    status := .online,
    num_sending_files := 2,
    file_sending := ftA :: ftB :: List.replicate 30 emptyFT }

/-- A transport with three budget slots above `MIN_SLOTS_FREE`, no max-speed
signal and no acknowledged packets. -/
def envC1 : ChunkEnv := ⟨MIN_SLOTS_FREE + 3, false, fun _ => false, true, 0⟩

/-- An online friend whose last reported connection kind is Udp. -/
def frC9 : Friend :=
  { emptyFriend with status := .online, last_connection_udp_tcp := .udp }

/-- The singleton roster holding `frC9`. -/
def flC9 : List Friend := [frC9]

/-- A transport reporting no direct connection and no online relays. -/
def envC9 : StatusEnv := ⟨false, 0⟩

/-- An online friend whose receiving slot 0 is not yet accepted. -/
def frC5a : Friend := frC2

/-- A transferring receiving transfer paused by us. -/
def ftC5b : FileTransfer :=
  { emptyFT with status := .transferring, size := 10, paused := FILE_PAUSE_US }

/-- An online friend whose receiving slot 0 holds `ftC5b`. -/
def frC5b : Friend :=
  { emptyFriend with
    status := .online,
    file_receiving := (List.replicate MAX_CONCURRENT_FILE_PIPES emptyFT).set 0 ftC5b }

/-- A transferring receiving transfer paused only by the other side. -/
def ftC5c : FileTransfer :=
  { emptyFT with status := .transferring, size := 10, paused := FILE_PAUSE_OTHER }

/-- An online friend whose receiving slot 0 holds `ftC5c`. -/
def frC5c : Friend :=
  { emptyFriend with
    status := .online,
    file_receiving := (List.replicate MAX_CONCURRENT_FILE_PIPES emptyFT).set 0 ftC5c }

/-- A transferring, unpaused receiving transfer. -/
def ftC5d : FileTransfer :=
  { emptyFT with status := .transferring, size := 10 }

/-- An online friend whose receiving slot 0 holds `ftC5d`. -/
def frC5d : Friend :=
  { emptyFriend with
    status := .online,
    file_receiving := (List.replicate MAX_CONCURRENT_FILE_PIPES emptyFT).set 0 ftC5d }

/-- An added (not yet confirmed) friend whose primary key is 32 bytes of 7
and whose stored request nospam is 1. -/
def frC6 : Friend :=
  { emptyFriend with
    status := .added,
    friendrequest_nospam := 1,
    dev_list := [{ status := .confirmed, real_pk := List.replicate 32 7, friendcon_id := 0 }] }

/-- An environment for roster operations: connections start disconnected,
every key is a valid curve point, and the local key is the single byte 9. -/
def envA : AddEnv := ⟨false, 3, fun _ => true, [9], 0⟩

/-- A confirmed friend occupying a roster slot (for the slot-reuse
fixtures), keyed by 32 bytes of 1. -/
def frOcc : Friend :=
  { emptyFriend with
    status := .confirmed,
    dev_list := [{ status := .confirmed, real_pk := List.replicate 32 1, friendcon_id := 0 }] }

/-- An online friend with two queued receipts, for packets 5 and 6. -/
def frC4 : Friend :=
  { emptyFriend with
    status := .online,
    receipts := [⟨5, 1⟩, ⟨6, 2⟩],
    dev_list := [{ status := .online, real_pk := [], friendcon_id := 0 }] }

/-- The singleton roster holding `frC4`. -/
def flC4 : List Friend := [frC4]

/-- An acknowledgement oracle that has delivered exactly packet 5. -/
def ackC4 : Nat → Bool := fun k => k == 5

/-! Shared helper lemmas. -/

theorem getD_set_self {α : Type} (l : List α) (i : Nat) (v d : α)
    (h : i < l.length) : (l.set i v).getD i d = v := by
  rw [List.getD_eq_getElem?_getD, List.getElem?_set_self h]
  rfl

theorem getD_set_ne {α : Type} (l : List α) (i j : Nat) (v d : α)
    (h : i ≠ j) : (l.set i v).getD j d = l.getD j d := by
  rw [List.getD_eq_getElem?_getD, List.getElem?_set_ne h,
    ← List.getD_eq_getElem?_getD]

theorem set_getD_self {α : Type} (l : List α) (i : Nat) (d : α)
    (h : i < l.length) : l.set i (l.getD i d) = l := by
  induction l generalizing i with
  | nil => simp at h
  | cons x xs ih =>
    cases i with
    | zero => simp [List.getD]
    | succ j =>
      simp only [List.set, List.getD_cons_succ]
      rw [ih j (by simpa using h)]

theorem friend_valid_lt (fl : List Friend) (n : Nat)
    (h : friend_not_valid fl n = false) : n < fl.length := by
  unfold friend_not_valid at h
  simp only [Bool.or_eq_false_iff, decide_eq_false_iff_not, Nat.not_le] at h
  exact h.1

theorem drop_getD_cons {α : Type} (l : List α) (i : Nat) (d : α)
    (h : i < l.length) : l.drop i = l.getD i d :: l.drop (i + 1) := by
  rw [List.drop_eq_getElem_cons h, List.getD_eq_getElem?_getD,
    List.getElem?_eq_getElem h]
  rfl

/-! Claim C4 helper: the receipt pop loop is exactly a takeWhile / dropWhile
split of the queue. -/

theorem do_receipts_loop_eq (acked : Nat → Bool) (l : List Receipt) :
    do_receipts_loop acked l =
      (l.dropWhile (fun r => acked r.packet_num),
       (l.takeWhile (fun r => acked r.packet_num)).map Receipt.msg_id) := by
  induction l with
  | nil => rfl
  | cons r rest ih =>
    simp only [do_receipts_loop, List.dropWhile_cons, List.takeWhile_cons]
    cases h : acked r.packet_num with
    | true => simp [ih]
    | false => simp

/-- Claim C4: the per-friend receipt queue is a FIFO.  `add_receipt` appends
`(packet_num, msg_id)` at the tail, and `do_receipts` pops exactly the
longest acknowledged prefix, invoking the `read_receipt` callback once per
popped entry in queue order, leaving the remainder of the queue unchanged. -/
theorem C4_receipt_fifo (acked : Nat → Bool) (fl : List Friend)
    (n p mid : Nat) (h : friend_not_valid fl n = false) :
    add_receipt fl n p mid =
      (0, fl.set n { fl.getD n emptyFriend with
                     receipts := (fl.getD n emptyFriend).receipts ++ [⟨p, mid⟩] }) ∧
    (do_receipts acked fl n).2 =
      ((fl.getD n emptyFriend).receipts.takeWhile
        (fun r => acked r.packet_num)).map Receipt.msg_id ∧
    ((do_receipts acked fl n).1.getD n emptyFriend).receipts =
      (fl.getD n emptyFriend).receipts.dropWhile (fun r => acked r.packet_num) := by
  have hlt := friend_valid_lt fl n h
  refine ⟨?_, ?_, ?_⟩
  · simp [add_receipt, h]
  · simp [do_receipts, h, do_receipts_loop_eq]
  · simp only [do_receipts, h, Bool.false_eq_true, if_false, do_receipts_loop_eq]
    rw [getD_set_self _ _ _ _ hlt]

/-- Witness for C4 at a concrete roster: two queued receipts, the transport
having acknowledged only the first packet. -/
theorem C4_receipt_fifo_witness :
    friend_not_valid flC4 0 = false ∧
    (add_receipt flC4 0 7 3 =
      (0, flC4.set 0 { flC4.getD 0 emptyFriend with
                       receipts := (flC4.getD 0 emptyFriend).receipts ++ [⟨7, 3⟩] }) ∧
    (do_receipts ackC4 flC4 0).2 =
      ((flC4.getD 0 emptyFriend).receipts.takeWhile
        (fun r => ackC4 r.packet_num)).map Receipt.msg_id ∧
    ((do_receipts ackC4 flC4 0).1.getD 0 emptyFriend).receipts =
      (flC4.getD 0 emptyFriend).receipts.dropWhile (fun r => ackC4 r.packet_num)) :=
  ⟨by decide, C4_receipt_fifo ackC4 flC4 0 7 3 (by decide)⟩

/-! Claim C10: failure atomicity of the send path. -/

theorem send_success_eq (env : SendEnv) (fl : List Friend) (n type length : Nat)
    (c1 : ¬ type > MESSAGE_ACTION)
    (c2 : ¬ friend_not_valid fl n = true)
    (c3 : ¬ length ≥ MAX_CRYPTO_DATA_SIZE)
    (c4 : (fl.getD n emptyFriend).status = .online)
    (c5 : ¬ send_dev_loop env (fl.getD n emptyFriend).dev_list 0 (-1) = -1) :
    m_send_message_generic env fl n type length =
      (0,
       fl.set n { fl.getD n emptyFriend with
         message_id := ((fl.getD n emptyFriend).message_id + 1) % U32_MOD
         receipts := (fl.getD n emptyFriend).receipts ++
           [⟨(send_dev_loop env (fl.getD n emptyFriend).dev_list 0 (-1)).toNat % U32_MOD,
             ((fl.getD n emptyFriend).message_id + 1) % U32_MOD⟩] },
       some (((fl.getD n emptyFriend).message_id + 1) % U32_MOD)) := by
  have hlt : n < fl.length := friend_valid_lt fl n (by simpa using c2)
  have c4n : (fl[n]?.getD emptyFriend).status = FriendStatus.online := by
    rw [← List.getD_eq_getElem?_getD]; exact c4
  have h4 : ¬ ((fl.getD n emptyFriend).status != FriendStatus.online) = true := by
    simp only [bne_iff_ne, ne_eq, Decidable.not_not]
    exact c4
  have h5 : ¬ (send_dev_loop env (fl.getD n emptyFriend).dev_list 0 (-1) == -1) = true := by
    simpa using c5
  have hval2 : ¬ friend_not_valid
      (fl.set n { fl.getD n emptyFriend with
        message_id := ((fl.getD n emptyFriend).message_id + 1) % U32_MOD }) n = true := by
    unfold friend_not_valid
    rw [getD_set_self _ _ _ _ hlt]
    simp only [List.length_set, Bool.or_eq_true, decide_eq_true_eq, beq_iff_eq]
    push_neg
    refine ⟨by omega, ?_⟩
    simp [c4n]
  simp only [m_send_message_generic]
  rw [if_neg c1, if_neg c2, if_neg c3, if_neg h4, if_neg h5]
  simp only [add_receipt]
  rw [if_neg hval2]
  rw [getD_set_self _ _ _ _ hlt, List.set_set]

/-- Claim C10: `m_send_message_generic` is atomic on failure.  On every error
result the roster (hence the friend's `message_id` and receipt queue) is
returned unchanged; on the success result the friend's `message_id` has been
bumped exactly once (mod `2^32`) and exactly one receipt carrying the new id
has been appended to the queue. -/
theorem C10_send_atomic (env : SendEnv) (fl : List Friend) (n type length : Nat) :
    ((m_send_message_generic env fl n type length).1 ≠ 0 →
      (m_send_message_generic env fl n type length).2.1 = fl) ∧
    ((m_send_message_generic env fl n type length).1 = 0 →
      ((m_send_message_generic env fl n type length).2.1.getD n emptyFriend).message_id =
        ((fl.getD n emptyFriend).message_id + 1) % U32_MOD ∧
      ∃ p, ((m_send_message_generic env fl n type length).2.1.getD n emptyFriend).receipts =
        (fl.getD n emptyFriend).receipts ++
          [⟨p, ((fl.getD n emptyFriend).message_id + 1) % U32_MOD⟩]) := by
  by_cases c1 : type > MESSAGE_ACTION
  · constructor
    · intro _; simp [m_send_message_generic, c1]
    · intro h0; exfalso; simp [m_send_message_generic, c1] at h0
  by_cases c2 : friend_not_valid fl n = true
  · constructor
    · intro _; simp [m_send_message_generic, c1, c2]
    · intro h0; exfalso; simp [m_send_message_generic, c1, c2] at h0
  by_cases c3 : length ≥ MAX_CRYPTO_DATA_SIZE
  · constructor
    · intro _; simp [m_send_message_generic, c1, c2, c3]
    · intro h0; exfalso; simp [m_send_message_generic, c1, c2, c3] at h0
  by_cases c4 : (fl.getD n emptyFriend).status = .online
  case neg =>
    have h4 : ((fl.getD n emptyFriend).status != FriendStatus.online) = true := by
      simpa using c4
    constructor
    · intro _
      simp only [m_send_message_generic]
      rw [if_neg c1, if_neg c2, if_neg c3, if_pos h4]
    · intro h0; exfalso
      simp only [m_send_message_generic] at h0
      rw [if_neg c1, if_neg c2, if_neg c3, if_pos h4] at h0
      simp at h0
  by_cases c5 : send_dev_loop env (fl.getD n emptyFriend).dev_list 0 (-1) = -1
  · have h5 : (send_dev_loop env (fl.getD n emptyFriend).dev_list 0 (-1) == -1) = true := by
      simpa using c5
    have h4 : ¬ ((fl.getD n emptyFriend).status != FriendStatus.online) = true := by
      simp only [bne_iff_ne, ne_eq, Decidable.not_not]
      exact c4
    constructor
    · intro _
      simp only [m_send_message_generic]
      rw [if_neg c1, if_neg c2, if_neg c3, if_neg h4, if_pos h5]
    · intro h0; exfalso
      simp only [m_send_message_generic] at h0
      rw [if_neg c1, if_neg c2, if_neg c3, if_neg h4, if_pos h5] at h0
      simp at h0
  · have hlt : n < fl.length := friend_valid_lt fl n (by simpa using c2)
    have hres := send_success_eq env fl n type length c1 c2 c3 c4 c5
    constructor
    · intro hne; exfalso; rw [hres] at hne; exact hne rfl
    · intro _
      rw [hres]
      refine ⟨?_, ⟨(send_dev_loop env (fl.getD n emptyFriend).dev_list 0 (-1)).toNat % U32_MOD, ?_⟩⟩
      · rw [getD_set_self _ _ _ _ hlt]
      · rw [getD_set_self _ _ _ _ hlt]

/-- Witness for C10: a failing send (bad type 2) leaves the concrete roster
untouched, and a successful send bumps the message id and appends the
receipt. -/
theorem C10_send_atomic_witness :
    (m_send_message_generic env0 fl0 0 2 1).2.1 = fl0 ∧
    (((m_send_message_generic env0 fl0 0 0 1).2.1.getD 0 emptyFriend).message_id =
        ((fl0.getD 0 emptyFriend).message_id + 1) % U32_MOD ∧
      ∃ p, ((m_send_message_generic env0 fl0 0 0 1).2.1.getD 0 emptyFriend).receipts =
        (fl0.getD 0 emptyFriend).receipts ++
          [⟨p, ((fl0.getD 0 emptyFriend).message_id + 1) % U32_MOD⟩]) :=
  ⟨(C10_send_atomic env0 fl0 0 2 1).1 (by decide),
   (C10_send_atomic env0 fl0 0 0 1).2 (by decide)⟩

/-! Claim C2: file_seek on a not-yet-accepted receiving transfer. -/

/-- Counterexample to claim C2 as stated: on a not-yet-accepted receiving
transfer of size 10, a successful `file_seek` to position 5 (file number
`1 << 16`, receiving slot 0) leaves `transferred = 5` but leaves
`requested` untouched (here 0), not `requested = 5` as claimed; the C sets
only `ft->transferred` (Messenger.c:1542). -/
theorem C2_counterexample :
    (file_seek envC2 flC2 0 65536 5).1 = 0 ∧
    (((file_seek envC2 flC2 0 65536 5).2.getD 0 emptyFriend).file_receiving.getD 0 emptyFT).transferred = 5 ∧
    ¬ (((file_seek envC2 flC2 0 65536 5).2.getD 0 emptyFriend).file_receiving.getD 0 emptyFT).requested = 5 := by
  decide

/-- Claim C2 amended: for a receiving transfer in NotAccepted, a successful
`file_seek` to `p < size` sets `transferred := p` and leaves every other
field (in particular `requested`) unchanged; `p >= size` fails with
BadPosition (-6) and leaves the roster unchanged. -/
theorem C2_file_seek_amended (env : ControlEnv) (fl : List Friend) (n idx p : Nat)
    (hval : friend_not_valid fl n = false)
    (hon : (fl.getD n emptyFriend).status = .online)
    (hidx : idx < MAX_CONCURRENT_FILE_PIPES)
    (hna : ((fl.getD n emptyFriend).file_receiving.getD idx emptyFT).status = .notAccepted) :
    (p < ((fl.getD n emptyFriend).file_receiving.getD idx emptyFT).size → env.send_ok = true →
      file_seek env fl n ((idx + 1) * 2 ^ 16) p =
        (0, fl.set n { fl.getD n emptyFriend with
          file_receiving := (fl.getD n emptyFriend).file_receiving.set idx
            { (fl.getD n emptyFriend).file_receiving.getD idx emptyFT with transferred := p } })) ∧
    (p ≥ ((fl.getD n emptyFriend).file_receiving.getD idx emptyFT).size →
      file_seek env fl n ((idx + 1) * 2 ^ 16) p = (-6, fl)) := by
  have hv : ¬ friend_not_valid fl n = true := by simp [hval]
  have hon' : ¬ ((fl.getD n emptyFriend).status != FriendStatus.online) = true := by
    simp only [bne_iff_ne, ne_eq, Decidable.not_not]; exact hon
  have hge : ¬ (idx + 1) * 2 ^ 16 < 2 ^ 16 := by
    have : 1 * 2 ^ 16 ≤ (idx + 1) * 2 ^ 16 := Nat.mul_le_mul_right _ (by omega)
    omega
  have hdiv : (idx + 1) * 2 ^ 16 / 2 ^ 16 - 1 = idx := by
    rw [Nat.mul_div_cancel _ (by norm_num : (0:Nat) < 2 ^ 16)]
    omega
  have hidx' : ¬ (idx + 1) * 2 ^ 16 / 2 ^ 16 - 1 ≥ MAX_CONCURRENT_FILE_PIPES := by
    rw [hdiv]; omega
  have hnone : ¬ (((fl.getD n emptyFriend).file_receiving.getD idx emptyFT).status == FileStatus.fsNone) = true := by
    simp only [beq_iff_eq, hna]
    decide
  have hacc : ¬ (((fl.getD n emptyFriend).file_receiving.getD idx emptyFT).status != FileStatus.notAccepted) = true := by
    simp only [bne_iff_ne, ne_eq, Decidable.not_not]
    exact hna
  constructor
  · intro hlt hok
    simp only [file_seek]
    rw [if_neg hv, if_neg hon', if_neg hge, if_neg hidx', hdiv,
      if_neg hnone, if_neg hacc, if_neg (by omega : ¬ p ≥ ((fl.getD n emptyFriend).file_receiving.getD idx emptyFT).size),
      if_pos hok]
  · intro hge2
    simp only [file_seek]
    rw [if_neg hv, if_neg hon', if_neg hge, if_neg hidx', hdiv,
      if_neg hnone, if_neg hacc, if_pos hge2]


/-- Witness for the amended C2 on the concrete fixture: a seek to 5 succeeds
updating only `transferred`, and a seek to 12 fails with BadPosition. -/
theorem C2_file_seek_amended_witness :
    file_seek envC2 flC2 0 ((0 + 1) * 2 ^ 16) 5 =
      (0, flC2.set 0 { flC2.getD 0 emptyFriend with
        file_receiving := (flC2.getD 0 emptyFriend).file_receiving.set 0
          { (flC2.getD 0 emptyFriend).file_receiving.getD 0 emptyFT with transferred := 5 } }) ∧
    file_seek envC2 flC2 0 ((0 + 1) * 2 ^ 16) 12 = (-6, flC2) :=
  ⟨(C2_file_seek_amended envC2 flC2 0 0 5 (by decide) (by decide) (by decide) (by decide)).1
      (by decide) (by decide),
   (C2_file_seek_amended envC2 flC2 0 0 12 (by decide) (by decide) (by decide) (by decide)).2
      (by decide)⟩

/-! Claim C5: the Accept file control. -/

/-- Claim C5: `file_control` with Accept on a receiving transfer.  When the
transfer is NotAccepted and the control packet goes out, it transitions to
Transferring; when already Transferring with PauseUs set, PauseUs is
cleared; when Transferring with the sole pause cause PauseOther, the call
fails with NotPausedByUs (-6); when Transferring and unpaused, it fails
with NotPaused (-7); both failures leave the roster unchanged. -/
theorem C5_file_control_accept (env : ControlEnv) (fl : List Friend) (n idx : Nat)
    (ft : FileTransfer)
    (hval : friend_not_valid fl n = false)
    (hon : (fl.getD n emptyFriend).status = .online)
    (hidx : idx < MAX_CONCURRENT_FILE_PIPES)
    (hft : (fl.getD n emptyFriend).file_receiving.getD idx emptyFT = ft) :
    (ft.status = .notAccepted → env.send_ok = true →
      file_control env fl n ((idx + 1) * 2 ^ 16) FILECONTROL_ACCEPT =
        (0, fl.set n { fl.getD n emptyFriend with
          file_receiving := (fl.getD n emptyFriend).file_receiving.set idx
            { ft with status := .transferring
                      paused := if ft.paused &&& FILE_PAUSE_US != 0 then
                          ft.paused ^^^ FILE_PAUSE_US
                        else ft.paused } })) ∧
    (ft.status = .transferring → (ft.paused &&& FILE_PAUSE_US != 0) = true →
      env.send_ok = true →
      file_control env fl n ((idx + 1) * 2 ^ 16) FILECONTROL_ACCEPT =
        (0, fl.set n { fl.getD n emptyFriend with
          file_receiving := (fl.getD n emptyFriend).file_receiving.set idx
            { ft with status := .transferring
                      paused := if ft.paused &&& FILE_PAUSE_US != 0 then
                          ft.paused ^^^ FILE_PAUSE_US
                        else ft.paused } })) ∧
    (ft.status = .transferring → ft.paused = FILE_PAUSE_OTHER →
      file_control env fl n ((idx + 1) * 2 ^ 16) FILECONTROL_ACCEPT = (-6, fl)) ∧
    (ft.status = .transferring → ft.paused = FILE_PAUSE_NOT →
      file_control env fl n ((idx + 1) * 2 ^ 16) FILECONTROL_ACCEPT = (-7, fl)) := by
  have hv : ¬ friend_not_valid fl n = true := by simp [hval]
  have hon' : ¬ ((fl.getD n emptyFriend).status != FriendStatus.online) = true := by
    simp only [bne_iff_ne, ne_eq, Decidable.not_not]; exact hon
  have hsr : (idx + 1) * 2 ^ 16 ≥ 2 ^ 16 := by
    have : 1 * 2 ^ 16 ≤ (idx + 1) * 2 ^ 16 := Nat.mul_le_mul_right _ (by omega)
    omega
  have hdiv : (idx + 1) * 2 ^ 16 / 2 ^ 16 - 1 = idx := by
    rw [Nat.mul_div_cancel _ (by norm_num : (0:Nat) < 2 ^ 16)]
    omega
  refine ⟨?_, ?_, ?_, ?_⟩
  · intro hna hok
    have hnone : ¬ (ft.status == FileStatus.fsNone) = true := by
      simp only [beq_iff_eq, hna]; decide
    simp only [file_control]
    rw [if_neg hv, if_neg hon', if_pos hsr, hdiv]
    rw [if_neg (by omega : ¬ idx ≥ MAX_CONCURRENT_FILE_PIPES)]
    rw [if_pos hsr]
    rw [hft]
    rw [if_neg hnone]
    rw [if_neg (by decide : ¬ FILECONTROL_ACCEPT > FILECONTROL_KILL)]
    rw [if_neg (show ¬ (FILECONTROL_ACCEPT == FILECONTROL_PAUSE &&
        (ft.paused &&& FILE_PAUSE_US != 0 || ft.status != .transferring)) = true by
      simp only [Bool.and_eq_true]
      rintro ⟨h1, -⟩
      exact absurd h1 (by decide))]
    rw [if_neg (show ¬ (FILECONTROL_ACCEPT == FILECONTROL_ACCEPT &&
        ft.status == FileStatus.transferring &&
        ft.paused &&& FILE_PAUSE_US == 0) = true by
      simp only [Bool.and_eq_true, beq_iff_eq]
      rintro ⟨⟨-, h2⟩, -⟩
      rw [hna] at h2
      exact absurd h2 (by decide))]
    rw [if_neg (show ¬ (FILECONTROL_ACCEPT == FILECONTROL_ACCEPT &&
        ft.status != FileStatus.transferring &&
        ft.status != FileStatus.notAccepted) = true by
      simp only [Bool.and_eq_true, bne_iff_ne, ne_eq]
      rintro ⟨⟨-, -⟩, h3⟩
      exact h3 hna)]
    rw [if_neg (show ¬ (FILECONTROL_ACCEPT == FILECONTROL_ACCEPT &&
        ft.status != FileStatus.transferring &&
        !(decide ((idx + 1) * 2 ^ 16 ≥ 2 ^ 16))) = true by
      simp only [Bool.and_eq_true, Bool.not_eq_true', decide_eq_false_iff_not]
      rintro ⟨⟨-, -⟩, h3⟩
      exact h3 hsr)]
    rw [if_pos hok]
    rw [if_neg (by decide : ¬ (FILECONTROL_ACCEPT == FILECONTROL_KILL) = true),
        if_neg (by decide : ¬ (FILECONTROL_ACCEPT == FILECONTROL_PAUSE) = true),
        if_pos (by decide : (FILECONTROL_ACCEPT == FILECONTROL_ACCEPT) = true)]
    rw [if_pos hsr]
  · intro hst hus hok
    have hnone : ¬ (ft.status == FileStatus.fsNone) = true := by
      simp only [beq_iff_eq, hst]; decide
    simp only [file_control]
    rw [if_neg hv, if_neg hon', if_pos hsr, hdiv]
    rw [if_neg (by omega : ¬ idx ≥ MAX_CONCURRENT_FILE_PIPES)]
    rw [if_pos hsr]
    rw [hft]
    rw [if_neg hnone]
    rw [if_neg (by decide : ¬ FILECONTROL_ACCEPT > FILECONTROL_KILL)]
    rw [if_neg (show ¬ (FILECONTROL_ACCEPT == FILECONTROL_PAUSE &&
        (ft.paused &&& FILE_PAUSE_US != 0 || ft.status != .transferring)) = true by
      simp only [Bool.and_eq_true]
      rintro ⟨h1, -⟩
      exact absurd h1 (by decide))]
    rw [if_neg (show ¬ (FILECONTROL_ACCEPT == FILECONTROL_ACCEPT &&
        ft.status == FileStatus.transferring &&
        ft.paused &&& FILE_PAUSE_US == 0) = true by
      simp only [Bool.and_eq_true, beq_iff_eq]
      rintro ⟨⟨-, -⟩, h3⟩
      rw [bne_iff_ne, ne_eq] at hus
      exact hus h3)]
    rw [if_neg (show ¬ (FILECONTROL_ACCEPT == FILECONTROL_ACCEPT &&
        ft.status != FileStatus.transferring &&
        ft.status != FileStatus.notAccepted) = true by
      simp only [Bool.and_eq_true, bne_iff_ne, ne_eq]
      rintro ⟨⟨-, h2⟩, -⟩
      exact h2 hst)]
    rw [if_neg (show ¬ (FILECONTROL_ACCEPT == FILECONTROL_ACCEPT &&
        ft.status != FileStatus.transferring &&
        !(decide ((idx + 1) * 2 ^ 16 ≥ 2 ^ 16))) = true by
      simp only [Bool.and_eq_true, bne_iff_ne, ne_eq]
      rintro ⟨⟨-, h2⟩, -⟩
      exact h2 hst)]
    rw [if_pos hok]
    rw [if_neg (by decide : ¬ (FILECONTROL_ACCEPT == FILECONTROL_KILL) = true),
        if_neg (by decide : ¬ (FILECONTROL_ACCEPT == FILECONTROL_PAUSE) = true),
        if_pos (by decide : (FILECONTROL_ACCEPT == FILECONTROL_ACCEPT) = true)]
    rw [if_pos hsr]
  · intro hst hoth
    have hnone : ¬ (ft.status == FileStatus.fsNone) = true := by
      simp only [beq_iff_eq, hst]; decide
    simp only [file_control]
    rw [if_neg hv, if_neg hon', if_pos hsr, hdiv]
    rw [if_neg (by omega : ¬ idx ≥ MAX_CONCURRENT_FILE_PIPES)]
    rw [if_pos hsr]
    rw [hft]
    rw [if_neg hnone]
    rw [if_neg (by decide : ¬ FILECONTROL_ACCEPT > FILECONTROL_KILL)]
    rw [if_neg (show ¬ (FILECONTROL_ACCEPT == FILECONTROL_PAUSE &&
        (ft.paused &&& FILE_PAUSE_US != 0 || ft.status != .transferring)) = true by
      simp only [Bool.and_eq_true]
      rintro ⟨h1, -⟩
      exact absurd h1 (by decide))]
    rw [if_pos (show (FILECONTROL_ACCEPT == FILECONTROL_ACCEPT &&
        ft.status == FileStatus.transferring &&
        ft.paused &&& FILE_PAUSE_US == 0) = true by
      simp only [Bool.and_eq_true, beq_iff_eq]
      exact ⟨⟨trivial, hst⟩, by rw [hoth]; decide⟩)]
    rw [if_pos (show (ft.paused &&& FILE_PAUSE_OTHER != 0) = true by
      rw [hoth]; decide)]
  · intro hst hnp
    have hnone : ¬ (ft.status == FileStatus.fsNone) = true := by
      simp only [beq_iff_eq, hst]; decide
    simp only [file_control]
    rw [if_neg hv, if_neg hon', if_pos hsr, hdiv]
    rw [if_neg (by omega : ¬ idx ≥ MAX_CONCURRENT_FILE_PIPES)]
    rw [if_pos hsr]
    rw [hft]
    rw [if_neg hnone]
    rw [if_neg (by decide : ¬ FILECONTROL_ACCEPT > FILECONTROL_KILL)]
    rw [if_neg (show ¬ (FILECONTROL_ACCEPT == FILECONTROL_PAUSE &&
        (ft.paused &&& FILE_PAUSE_US != 0 || ft.status != .transferring)) = true by
      simp only [Bool.and_eq_true]
      rintro ⟨h1, -⟩
      exact absurd h1 (by decide))]
    rw [if_pos (show (FILECONTROL_ACCEPT == FILECONTROL_ACCEPT &&
        ft.status == FileStatus.transferring &&
        ft.paused &&& FILE_PAUSE_US == 0) = true by
      simp only [Bool.and_eq_true, beq_iff_eq]
      exact ⟨⟨trivial, hst⟩, by rw [hnp]; decide⟩)]
    rw [if_neg (show ¬ (ft.paused &&& FILE_PAUSE_OTHER != 0) = true by
      rw [hnp]; decide)]

/-- Witness for C5 on the four concrete fixtures: Accept succeeds on a
NotAccepted receiving transfer and on one paused by us, and fails with -6 /
-7 on the pause-other / unpaused transferring ones. -/
theorem C5_file_control_accept_witness :
    (file_control envC2 [frC5a] 0 ((0 + 1) * 2 ^ 16) FILECONTROL_ACCEPT =
      (0, [frC5a].set 0 { [frC5a].getD 0 emptyFriend with
        file_receiving := ([frC5a].getD 0 emptyFriend).file_receiving.set 0
          { ftC2 with status := .transferring
                      paused := if ftC2.paused &&& FILE_PAUSE_US != 0 then
                          ftC2.paused ^^^ FILE_PAUSE_US
                        else ftC2.paused } })) ∧
    (file_control envC2 [frC5b] 0 ((0 + 1) * 2 ^ 16) FILECONTROL_ACCEPT =
      (0, [frC5b].set 0 { [frC5b].getD 0 emptyFriend with
        file_receiving := ([frC5b].getD 0 emptyFriend).file_receiving.set 0
          { ftC5b with status := .transferring
                       paused := if ftC5b.paused &&& FILE_PAUSE_US != 0 then
                           ftC5b.paused ^^^ FILE_PAUSE_US
                         else ftC5b.paused } })) ∧
    file_control envC2 [frC5c] 0 ((0 + 1) * 2 ^ 16) FILECONTROL_ACCEPT = (-6, [frC5c]) ∧
    file_control envC2 [frC5d] 0 ((0 + 1) * 2 ^ 16) FILECONTROL_ACCEPT = (-7, [frC5d]) :=
  ⟨(C5_file_control_accept envC2 [frC5a] 0 0 ftC2 (by decide) (by decide) (by decide)
      (by decide)).1 (by decide) (by decide),
   (C5_file_control_accept envC2 [frC5b] 0 0 ftC5b (by decide) (by decide) (by decide)
      (by decide)).2.1 (by decide) (by decide) (by decide),
   (C5_file_control_accept envC2 [frC5c] 0 0 ftC5c (by decide) (by decide) (by decide)
      (by decide)).2.2.1 (by decide) (by decide),
   (C5_file_control_accept envC2 [frC5d] 0 0 ftC5d (by decide) (by decide) (by decide)
      (by decide)).2.2.2 (by decide) (by decide)⟩

/-! Claim C9: connection-kind reporting. -/

/-- Counterexample to claim C9 as stated: for an Online friend whose last
reported kind is Udp and whose transport reports neither a direct connection
nor online relays (computed kind Unknown), the code returns early with no
callback and the memoized kind still Udp (Messenger.c:1080-1081), whereas
the claim prescribes reporting Tcp instead (which would fire the callback
and memoize Tcp). -/
theorem C9_counterexample :
    check_friend_tcp_udp envC9 flC9 0 = (flC9, none) ∧
    check_tcp_udp_claim envC9 flC9 0 ≠ (flC9, none) ∧
    m_get_friend_connectionstatus envC9 flC9 0 = some .unknown ∧
    (flC9.getD 0 emptyFriend).last_connection_udp_tcp = .udp := by
  decide

/-- Claim C9 amended: the reported kind follows direct => Udp, else
relays > 0 => Tcp, else Unknown; a computed Unknown with last reported kind
Udp makes the check return early (no callback, memoized kind kept), any
other computed Unknown is reported as Tcp; the callback fires exactly when
the reported kind differs from the last reported kind. -/
theorem C9_connection_kind_amended (env : StatusEnv) (fl : List Friend) (n : Nat) :
    check_friend_tcp_udp env fl n = check_tcp_udp_amended env fl n := by
  cases h : m_get_friend_connectionstatus env fl n with
  | none => simp [check_friend_tcp_udp, check_tcp_udp_amended, h]
  | some k =>
    cases k <;> cases hl : (fl[n]?.getD emptyFriend).last_connection_udp_tcp <;>
      simp [check_friend_tcp_udp, check_tcp_udp_amended, h, hl, reported_kind]

/-! Claim C6: nospam update on re-adding a pending friend. -/

/-- Claim C6: when `m_addfriend` is called with a well-formed address whose
key belongs to an existing friend (`getfriend_id` finds slot `fid`): if the
friend's status is below Confirmed and the stored nospam differs from the
address's, the stored nospam is updated and the call returns SetNewNospam
without touching any other state or creating a slot; if the stored nospam
already matches, or the status is at least Confirmed, it returns AlreadySent
and changes nothing. -/
theorem C6_addfriend_nospam (env : AddEnv) (fl : List Friend)
    (address data : List Nat) (fid : Nat)
    (hlen : data.length ≤ MAX_FRIEND_REQUEST_DATA_SIZE)
    (hlen1 : 1 ≤ data.length)
    (hpk : env.public_key_valid (address.take 32) = true)
    (hck : address_checksum_ok address = true)
    (hown : (address.take 32 == env.self_public_key) = false)
    (hfind : getfriend_id fl (address.take 32) = some fid) :
    (statusVal (fl.getD fid emptyFriend).status < statusVal .confirmed →
      (fl.getD fid emptyFriend).friendrequest_nospam ≠ nospam_of address →
      m_addfriend env fl address data =
        (.setNewNospam,
         fl.set fid { fl.getD fid emptyFriend with
                      friendrequest_nospam := nospam_of address })) ∧
    (statusVal (fl.getD fid emptyFriend).status < statusVal .confirmed →
      (fl.getD fid emptyFriend).friendrequest_nospam = nospam_of address →
      m_addfriend env fl address data = (.alreadySent, fl)) ∧
    (statusVal (fl.getD fid emptyFriend).status ≥ statusVal .confirmed →
      m_addfriend env fl address data = (.alreadySent, fl)) := by
  have h1 : ¬ data.length > MAX_FRIEND_REQUEST_DATA_SIZE := by omega
  have h2 : ¬ (! env.public_key_valid (address.take 32)) = true := by simp [hpk]
  have h3 : ¬ (! address_checksum_ok address) = true := by simp [hck]
  have h4 : ¬ data.length < 1 := by omega
  have h5 : ¬ (address.take 32 == env.self_public_key) = true := by simp [hown]
  refine ⟨?_, ?_, ?_⟩
  · intro hst hns
    simp only [m_addfriend, hfind]
    rw [if_neg h1, if_neg h2, if_neg h3, if_neg h4, if_neg h5]
    rw [if_neg (by omega : ¬ statusVal (fl.getD fid emptyFriend).status ≥ statusVal .confirmed)]
    rw [if_neg (show ¬ ((fl.getD fid emptyFriend).friendrequest_nospam == nospam_of address) = true by
      simp only [beq_iff_eq]; exact hns)]
  · intro hst hns
    simp only [m_addfriend, hfind]
    rw [if_neg h1, if_neg h2, if_neg h3, if_neg h4, if_neg h5]
    rw [if_neg (by omega : ¬ statusVal (fl.getD fid emptyFriend).status ≥ statusVal .confirmed)]
    rw [if_pos (show ((fl.getD fid emptyFriend).friendrequest_nospam == nospam_of address) = true by
      simp only [beq_iff_eq]; exact hns)]
  · intro hst
    simp only [m_addfriend, hfind]
    rw [if_neg h1, if_neg h2, if_neg h3, if_neg h4, if_neg h5]
    rw [if_pos hst]

/-- Witness for C6: re-adding the pending friend `frC6` with nospam 5
updates its stored nospam and returns SetNewNospam; re-adding the confirmed
friend `frOcc` returns AlreadySent unchanged. -/
theorem C6_addfriend_nospam_witness :
    m_addfriend envA [frC6] (encode_address (List.replicate 32 7) 5) [1] =
      (.setNewNospam,
       [frC6].set 0 { [frC6].getD 0 emptyFriend with
         friendrequest_nospam := nospam_of (encode_address (List.replicate 32 7) 5) }) ∧
    m_addfriend envA [frOcc] (encode_address (List.replicate 32 1) 5) [1] =
      (.alreadySent, [frOcc]) :=
  ⟨(C6_addfriend_nospam envA [frC6] (encode_address (List.replicate 32 7) 5) [1] 0
      (by decide) (by decide) (by decide) (by decide) (by decide) (by decide)).1
      (by decide) (by decide),
   (C6_addfriend_nospam envA [frOcc] (encode_address (List.replicate 32 1) 5) [1] 0
      (by decide) (by decide) (by decide) (by decide) (by decide) (by decide)).2.2
      (by decide)⟩

/-! Claim C7 helpers: specifications of the free-slot scan and of the
trailing-slot shrink. -/

theorem scan_free_spec : ∀ (l : List Friend) (k i : Nat), scan_free l k = some i →
    k ≤ i ∧ i - k < l.length ∧ (l.getD (i - k) emptyFriend).status = .noFriend ∧
    ∀ j, j < i - k → (l.getD j emptyFriend).status ≠ .noFriend := by
  intro l
  induction l with
  | nil => intro k i h; simp [scan_free] at h
  | cons f rest ih =>
    intro k i h
    simp only [scan_free] at h
    by_cases hf : (f.status == FriendStatus.noFriend) = true
    · rw [if_pos hf] at h
      obtain rfl : k = i := by simpa using h
      refine ⟨le_refl _, by simp, ?_, ?_⟩
      · simpa using (beq_iff_eq.mp hf)
      · intro j hj; omega
    · rw [if_neg hf] at h
      obtain ⟨h1, h2, h3, h4⟩ := ih (k + 1) i h
      refine ⟨by omega, ?_, ?_, ?_⟩
      · simp only [List.length_cons]; omega
      · have : i - k = (i - (k + 1)) + 1 := by omega
        rw [this]
        simpa using h3
      · intro j hj
        cases j with
        | zero =>
          simpa using (by simpa using hf : ¬ f.status = FriendStatus.noFriend)
        | succ m =>
          have : m < i - (k + 1) := by omega
          simpa using h4 m this

theorem scan_free_none_spec : ∀ (l : List Friend) (k : Nat), scan_free l k = none →
    ∀ j, j < l.length → (l.getD j emptyFriend).status ≠ .noFriend := by
  intro l
  induction l with
  | nil => intro k h j hj; simp at hj
  | cons f rest ih =>
    intro k h j hj
    simp only [scan_free] at h
    by_cases hf : (f.status == FriendStatus.noFriend) = true
    · rw [if_pos hf] at h; exact absurd h (by simp)
    · rw [if_neg hf] at h
      cases j with
      | zero => simpa using (by simpa using hf : ¬ f.status = FriendStatus.noFriend)
      | succ m =>
        have : m < rest.length := by simpa using hj
        simpa using ih (k + 1) h m this

theorem scan_free_found : ∀ (l : List Friend) (k i : Nat),
    (∀ j, j < i → j < l.length → (l.getD j emptyFriend).status ≠ .noFriend) →
    i < l.length → (l.getD i emptyFriend).status = .noFriend →
    scan_free l k = some (k + i) := by
  intro l
  induction l with
  | nil => intro k i _ hi _; simp at hi
  | cons f rest ih =>
    intro k i hocc hi hfree
    simp only [scan_free]
    cases i with
    | zero =>
      rw [if_pos (by simpa using hfree)]
      simp
    | succ m =>
      have hf : ¬ (f.status == FriendStatus.noFriend) = true := by
        simpa using hocc 0 (by omega) (by simp)
      rw [if_neg hf]
      have := ih (k + 1) m
        (fun j hj hjl => by simpa using hocc (j + 1) (by omega) (by simpa using hjl))
        (by simpa using hi) (by simpa using hfree)
      rw [this]
      congr 1
      omega

theorem scan_free_all_occupied : ∀ (l : List Friend) (k : Nat),
    (∀ j, j < l.length → (l.getD j emptyFriend).status ≠ .noFriend) →
    scan_free l k = none := by
  intro l
  induction l with
  | nil => intro k _; rfl
  | cons f rest ih =>
    intro k hocc
    simp only [scan_free]
    rw [if_neg (by simpa using hocc 0 (by simp))]
    exact ih (k + 1) (fun j hj => by simpa using hocc (j + 1) (by simpa using hj))

theorem dtf_length_le : ∀ (l : List Friend), (dropTrailingFree l).length ≤ l.length := by
  intro l
  induction l with
  | nil => simp [dropTrailingFree]
  | cons f rest ih =>
    simp only [dropTrailingFree]
    split
    · simp
    · simp only [List.length_cons]; omega

theorem dtf_getD : ∀ (l : List Friend) (j : Nat), j < (dropTrailingFree l).length →
    (dropTrailingFree l).getD j emptyFriend = l.getD j emptyFriend := by
  intro l
  induction l with
  | nil => intro j hj; simp [dropTrailingFree] at hj
  | cons f rest ih =>
    intro j hj
    simp only [dropTrailingFree] at hj ⊢
    by_cases hc : ((dropTrailingFree rest).isEmpty && (f.status == FriendStatus.noFriend)) = true
    · rw [if_pos hc] at hj
      simp at hj
    · rw [if_neg hc] at hj ⊢
      cases j with
      | zero => simp
      | succ m =>
        simp only [List.getD_cons_succ]
        simp only [List.length_cons] at hj
        exact ih m (by omega)

theorem dtf_keep : ∀ (l : List Friend) (j : Nat), j < l.length →
    (l.getD j emptyFriend).status ≠ .noFriend →
    j < (dropTrailingFree l).length := by
  intro l
  induction l with
  | nil => intro j hj _; simp at hj
  | cons f rest ih =>
    intro j hj hocc
    simp only [dropTrailingFree]
    cases j with
    | zero =>
      have hf : ¬ (f.status == FriendStatus.noFriend) = true := by simpa using hocc
      rw [if_neg (by simp [hf])]
      simp
    | succ m =>
      have hm : m < (dropTrailingFree rest).length :=
        ih m (by simpa using hj) (by simpa using hocc)
      have hne : ¬ (dropTrailingFree rest).isEmpty = true := by
        cases hrest : dropTrailingFree rest with
        | nil => rw [hrest] at hm; simp at hm
        | cons a b => simp
      rw [if_neg (by simp [hne])]
      simp only [List.length_cons]
      omega

/-- Claim C7: slot placement and reuse.  `init_new_friend` places the new
friend in the lowest-indexed NOFRIEND slot, growing the roster only when no
free slot exists; after a successful `m_delfriend i`, `m_friend_exists i` is
false, and a subsequent `init_new_friend` returns index `i` again whenever
the slots below `i` are all occupied. -/
theorem C7_slot_reuse (env : AddEnv) (fl : List Friend) (pk : List Nat)
    (st : FriendStatus) (i : Nat) :
    ((init_new_friend env fl pk st).2 ≤ fl.length ∧
     (∀ j, j < (init_new_friend env fl pk st).2 →
        (fl.getD j emptyFriend).status ≠ .noFriend) ∧
     ((init_new_friend env fl pk st).2 < fl.length →
        (fl.getD (init_new_friend env fl pk st).2 emptyFriend).status = .noFriend ∧
        (init_new_friend env fl pk st).1.length = fl.length) ∧
     ((init_new_friend env fl pk st).2 = fl.length →
        (init_new_friend env fl pk st).1.length = fl.length + 1)) ∧
    (m_friend_exists fl i = true →
      ∃ fl', m_delfriend fl i = some fl' ∧
        m_friend_exists fl' i = false ∧
        ((∀ j, j < i → (fl.getD j emptyFriend).status ≠ .noFriend) →
          (init_new_friend env fl' pk st).2 = i)) := by
  constructor
  · cases h : scan_free fl 0 with
    | some idx =>
      obtain ⟨-, hlt, hfree, hocc⟩ := scan_free_spec fl 0 idx h
      simp only [Nat.sub_zero] at hlt hfree hocc
      simp only [init_new_friend, h]
      refine ⟨by omega, ?_, ?_, ?_⟩
      · intro j hj; exact hocc j hj
      · intro _; exact ⟨hfree, by simp⟩
      · intro heq; omega
    | none =>
      have hocc := scan_free_none_spec fl 0 h
      simp only [init_new_friend, h]
      refine ⟨le_refl _, ?_, ?_, ?_⟩
      · intro j hj; exact hocc j hj
      · intro hlt; omega
      · intro _; simp
  · intro hex
    have hnv : friend_not_valid fl i = false := by
      simp only [m_friend_exists, Bool.not_eq_true'] at hex
      exact hex
    have hlt : i < fl.length := friend_valid_lt fl i hnv
    refine ⟨dropTrailingFree (fl.set i emptyFriend), ?_, ?_, ?_⟩
    · simp only [m_delfriend, hnv]
      rfl
    · simp only [m_friend_exists, Bool.not_eq_false', friend_not_valid]
      by_cases hi' : i < (dropTrailingFree (fl.set i emptyFriend)).length
      · rw [dtf_getD _ _ hi', getD_set_self _ _ _ _ (by simpa using hlt)]
        simp [emptyFriend]
      · simp only [Bool.or_eq_true, decide_eq_true_eq]
        left
        omega
    · intro hocc
      have hget : ∀ j, j < i →
          ((fl.set i emptyFriend).getD j emptyFriend).status ≠ .noFriend := by
        intro j hj
        rw [getD_set_ne _ _ _ _ _ (by omega)]
        exact hocc j hj
      by_cases hi' : i < (dropTrailingFree (fl.set i emptyFriend)).length
      · have hfree : ((dropTrailingFree (fl.set i emptyFriend)).getD i emptyFriend).status
            = .noFriend := by
          rw [dtf_getD _ _ hi', getD_set_self _ _ _ _ (by simpa using hlt)]
          rfl
        have hoccd : ∀ j, j < i → j < (dropTrailingFree (fl.set i emptyFriend)).length →
            ((dropTrailingFree (fl.set i emptyFriend)).getD j emptyFriend).status ≠ .noFriend := by
          intro j hj hjl
          rw [dtf_getD _ _ hjl]
          exact hget j hj
        have := scan_free_found (dropTrailingFree (fl.set i emptyFriend)) 0 i hoccd hi' hfree
        simp only [init_new_friend, this, Nat.zero_add]
      · have hlen_ge : i ≤ (dropTrailingFree (fl.set i emptyFriend)).length := by
          by_contra hcon
          push_neg at hcon
          have hkeep := dtf_keep (fl.set i emptyFriend)
            (dropTrailingFree (fl.set i emptyFriend)).length
            (by simp only [List.length_set]; omega)
            (hget _ (by omega))
          omega
        have hlen_eq : (dropTrailingFree (fl.set i emptyFriend)).length = i := by omega
        have hoccd : ∀ j, j < (dropTrailingFree (fl.set i emptyFriend)).length →
            ((dropTrailingFree (fl.set i emptyFriend)).getD j emptyFriend).status ≠ .noFriend := by
          intro j hj
          rw [dtf_getD _ _ hj]
          exact hget j (by omega)
        have := scan_free_all_occupied (dropTrailingFree (fl.set i emptyFriend)) 0 hoccd
        simp only [init_new_friend, this]
        exact hlen_eq

/-- Witness for C7: deleting friend 1 of a two-friend roster makes it
nonexistent and a subsequent add may land in slot 1 again. -/
theorem C7_slot_reuse_witness :
    m_friend_exists [frOcc, frOcc] 1 = true ∧
    (∃ fl', m_delfriend [frOcc, frOcc] 1 = some fl' ∧
      m_friend_exists fl' 1 = false ∧
      ((∀ j, j < 1 →
          (([frOcc, frOcc] : List Friend).getD j emptyFriend).status ≠ .noFriend) →
        (init_new_friend envA fl' (List.replicate 32 2) .added).2 = 1)) :=
  ⟨by decide,
   (C7_slot_reuse envA [frOcc, frOcc] (List.replicate 32 2) .added 1).2 (by decide)⟩

/-! Claim C8: address checksum validation. -/

/-- XOR by `m` fixes a number only when `m` is zero. -/
theorem xor_cancel_zero (a m : Nat) (h : a ^^^ m = a) : m = 0 := by
  calc m = 0 ^^^ m := (Nat.zero_xor m).symm
    _ = (a ^^^ a) ^^^ m := by rw [Nat.xor_self]
    _ = a ^^^ (a ^^^ m) := Nat.xor_assoc _ _ _
    _ = a ^^^ a := by rw [h]
    _ = 0 := Nat.xor_self a

/-- XORing a nonzero mask into either checksum component changes the pair. -/
theorem xorComp_ne (b : Bool) (m : Nat) (c : Nat × Nat) (hm : m ≠ 0) :
    xorComp b m c ≠ c := by
  obtain ⟨c1, c2⟩ := c
  intro hEq
  cases b with
  | false =>
    rw [xorComp, if_neg (by decide : ¬ (false : Bool) = true)] at hEq
    injection hEq with h1 h2
    exact hm (xor_cancel_zero _ _ h1)
  | true =>
    rw [xorComp, if_pos rfl] at hEq
    injection hEq with h1 h2
    exact hm (xor_cancel_zero _ _ h2)

/-- The checksum fold commutes with XORing a mask into the accumulator. -/
theorem cs_go_xorComp : ∀ (l : List Nat) (p b : Bool) (m : Nat) (acc : Nat × Nat),
    cs_go l p (xorComp b m acc) = xorComp b m (cs_go l p acc) := by
  intro l
  induction l with
  | nil => intro p b m acc; rfl
  | cons x xs ih =>
    intro p b m acc
    obtain ⟨a1, a2⟩ := acc
    have hstep : (if p then ((xorComp b m (a1, a2)).1, (xorComp b m (a1, a2)).2 ^^^ x)
          else ((xorComp b m (a1, a2)).1 ^^^ x, (xorComp b m (a1, a2)).2)) =
        xorComp b m (if p then (a1, a2 ^^^ x) else (a1 ^^^ x, a2)) := by
      cases p <;> cases b <;>
        simp [xorComp, Nat.xor_assoc, Nat.xor_comm m x]
    simp only [cs_go]
    rw [hstep, ih]

/-- XORing a mask into byte `i` of the input moves the fold by the same
mask in component `parityAt p i`. -/
theorem cs_go_set : ∀ (l : List Nat) (i : Nat) (m : Nat) (p : Bool) (acc : Nat × Nat),
    i < l.length →
    cs_go (l.set i (l.getD i 0 ^^^ m)) p acc =
      xorComp (parityAt p i) m (cs_go l p acc) := by
  intro l
  induction l with
  | nil => intro i m p acc hi; simp at hi
  | cons x xs ih =>
    intro i m p acc hi
    cases i with
    | zero =>
      simp only [List.set, List.getD_cons_zero, cs_go, parityAt]
      have hstep : (if p then (acc.1, acc.2 ^^^ (x ^^^ m)) else (acc.1 ^^^ (x ^^^ m), acc.2)) =
          xorComp p m (if p then (acc.1, acc.2 ^^^ x) else (acc.1 ^^^ x, acc.2)) := by
        cases p <;> simp [xorComp, Nat.xor_assoc, Nat.xor_comm m x]
      rw [hstep, cs_go_xorComp]
    | succ j =>
      simp only [List.set, List.getD_cons_succ, cs_go, parityAt]
      exact ih j m (!p) _ (by simpa using hi)

/-- An encoded address always carries the checksum of its first 36 bytes. -/
theorem encode_checksum_ok (pk : List Nat) (nospam : Nat) (hpk : pk.length = 32) :
    address_checksum_ok (encode_address pk nospam) = true := by
  have hlen : (pk ++ u32_bytes nospam).length = 36 := by
    simp [u32_bytes, hpk]
  simp only [encode_address, address_checksum_ok]
  rw [List.take_left' hlen]
  rw [List.getD_append_right _ _ _ _ (by omega), List.getD_append_right _ _ _ _ (by omega)]
  rw [hlen]
  simp

/-- Flipping any single bit of a checksummed 38-byte address breaks the
checksum comparison: inside the first 36 bytes the recomputed fold moves in
exactly one component, and inside the stored bytes the fold stays put while
the stored pair moves. -/
theorem checksum_ok_flip (a : List Nat) (c0 c1 i b : Nat)
    (ha : a.length = 36) (hcs : address_checksum a = (c0, c1)) (hi : i < 38) :
    address_checksum_ok (flipBit (a ++ [c0, c1]) i b) = false := by
  have hb2 : (2 : Nat) ^ b ≠ 0 := Nat.pos_iff_ne_zero.mp (Nat.pos_pow_of_pos b (by omega))
  have happlen : (a ++ [c0, c1]).length = 38 := by simp [ha]
  rcases Nat.lt_or_ge i 36 with hlt | hge
  · -- flip inside the checksummed span
    have hset : flipBit (a ++ [c0, c1]) i b =
        a.set i (a.getD i 0 ^^^ 2 ^ b) ++ [c0, c1] := by
      rw [flipBit, List.getD_append _ _ _ _ (by omega), List.set_append,
        if_pos (by omega)]
    rw [hset]
    have hsetlen : (a.set i (a.getD i 0 ^^^ 2 ^ b)).length = 36 := by
      simp [ha]
    simp only [address_checksum_ok]
    rw [List.take_left' hsetlen]
    rw [List.getD_append_right _ _ _ _ (by omega), List.getD_append_right _ _ _ _ (by omega)]
    rw [hsetlen]
    simp only [Nat.sub_self]
    have h37 : (37 : Nat) - 36 = 1 := by omega
    rw [h37]
    have hfold : address_checksum (a.set i (a.getD i 0 ^^^ 2 ^ b)) =
        xorComp (parityAt false i) (2 ^ b) (address_checksum a) :=
      cs_go_set a i (2 ^ b) false (0, 0) (by omega)
    rw [hfold, hcs]
    simp only [List.getD_cons_zero, List.getD_cons_succ]
    exact beq_eq_false_iff_ne.mpr (xorComp_ne _ _ _ hb2)
  · -- flip inside the stored checksum bytes
    have hgetD : (a ++ [c0, c1]).getD i 0 = [c0, c1].getD (i - 36) 0 := by
      rw [List.getD_append_right _ _ _ _ (by omega), ha]
    have hset : flipBit (a ++ [c0, c1]) i b =
        a ++ [c0, c1].set (i - 36) ([c0, c1].getD (i - 36) 0 ^^^ 2 ^ b) := by
      rw [flipBit, hgetD, List.set_append, if_neg (by omega), ha]
    rw [hset]
    have hi36 : i - 36 = 0 ∨ i - 36 = 1 := by omega
    simp only [address_checksum_ok]
    rw [List.take_left' ha]
    rw [List.getD_append_right _ _ _ _ (by rw [ha]), List.getD_append_right _ _ _ _ (by omega)]
    rw [ha]
    simp only [Nat.sub_self]
    have h37 : (37 : Nat) - 36 = 1 := by omega
    rw [h37, hcs]
    rcases hi36 with h0 | h1
    · rw [h0]
      simp only [List.set, List.getD_cons_zero, List.getD_cons_succ]
      refine beq_eq_false_iff_ne.mpr ?_
      intro hEq
      injection hEq with hx hy
      exact hb2 (xor_cancel_zero _ _ hx.symm)
    · rw [h1]
      simp only [List.set, List.getD_cons_zero, List.getD_cons_succ]
      refine beq_eq_false_iff_ne.mpr ?_
      intro hEq
      injection hEq with hx hy
      exact hb2 (xor_cancel_zero _ _ hy.symm)

/-- With a broken checksum (and an acceptable greeting length),
`m_addfriend` fails with BadChecksum whatever the key-validity oracle says,
leaving the roster unchanged. -/
theorem m_addfriend_badchecksum (env : AddEnv) (fl : List Friend)
    (addr data : List Nat)
    (hck : address_checksum_ok addr = false)
    (hlen : data.length ≤ MAX_FRIEND_REQUEST_DATA_SIZE) :
    m_addfriend env fl addr data = (.badChecksum, fl) := by
  simp only [m_addfriend]
  rw [if_neg (by omega : ¬ data.length > MAX_FRIEND_REQUEST_DATA_SIZE)]
  by_cases hpk : env.public_key_valid (addr.take 32) = true
  · rw [if_neg (by simp [hpk]), if_pos (by simp [hck])]
  · rw [if_pos (by simp only [Bool.not_eq_true] at hpk; simp [hpk])]

/-- Claim C8: the 38-byte address checksum.  The checksum is the XOR fold of
the first 36 bytes (byte i XORed into component i mod 2, the definition of
`address_checksum`); every address produced by `encode_address` passes
`m_addfriend`'s checksum validation; and flipping any single bit of a valid
38-byte address makes `m_addfriend` fail with BadChecksum (the code reports
invalid keys with the same tag) without creating a friend. -/
theorem C8_address_checksum (pk : List Nat) (nospam : Nat) (env : AddEnv)
    (fl : List Friend) (a : List Nat) (c0 c1 i b : Nat) (data : List Nat)
    (hpk : pk.length = 32) (ha : a.length = 36)
    (hcs : address_checksum a = (c0, c1)) (hi : i < 38) (_hb : b < 8)
    (hdata : data.length ≤ MAX_FRIEND_REQUEST_DATA_SIZE) :
    address_checksum_ok (encode_address pk nospam) = true ∧
    m_addfriend env fl (flipBit (a ++ [c0, c1]) i b) data = (.badChecksum, fl) :=
  ⟨encode_checksum_ok pk nospam hpk,
   m_addfriend_badchecksum env fl _ data (checksum_ok_flip a c0 c1 i b ha hcs hi) hdata⟩

/-- Witness for C8 at a concrete key and nospam, flipping bit 3 of byte 0. -/
theorem C8_address_checksum_witness :
    address_checksum_ok (encode_address (List.replicate 32 7) 5) = true ∧
    m_addfriend envA []
      (flipBit ((List.replicate 32 7 ++ [5, 0, 0, 0]) ++ [5, 0]) 0 3) [1] =
      (.badChecksum, []) :=
  C8_address_checksum (List.replicate 32 7) 5 envA []
    (List.replicate 32 7 ++ [5, 0, 0, 0]) 5 0 0 3 [1]
    (by decide) (by decide) (by decide) (by decide) (by decide) (by decide)

/-! Claim C3: the per-friend message-id counter. -/

/-- One successful send in the concrete one-friend scenario bumps
`message_id` modulo `2^32`, appends the receipt, and returns the new id. -/
theorem send_step_state (m : Nat) (rs : List Receipt) :
    m_send_message_generic env0 [{ fr0 with message_id := m, receipts := rs }] 0 0 1 =
      (0,
       [{ fr0 with
          message_id := (m + 1) % U32_MOD,
          receipts := rs ++ [⟨5, (m + 1) % U32_MOD⟩] }],
       some ((m + 1) % U32_MOD)) := by
  have c2 : friend_not_valid [{ fr0 with message_id := m, receipts := rs }] 0 = false := rfl
  have hres := send_success_eq env0 [{ fr0 with message_id := m, receipts := rs }] 0 0 1
    (by decide) (by simp [c2]) (by decide) rfl
    (by
      intro h
      rw [show send_dev_loop env0
          (([{ fr0 with message_id := m, receipts := rs }] : List Friend).getD 0
            emptyFriend).dev_list 0 (-1) = (5 : Int) from rfl] at h
      exact absurd h (by decide))
  exact hres

/-- After `n` sends in the concrete scenario, the friend holds
`message_id = n % 2^32` (each send having succeeded). -/
theorem send_iter_state : ∀ n : Nat, ∃ rs, (send_step env0)^[n] fl0 =
    [{ fr0 with message_id := n % U32_MOD, receipts := rs }] := by
  intro n
  induction n with
  | zero => exact ⟨[], rfl⟩
  | succ n ih =>
    obtain ⟨rs, hrs⟩ := ih
    refine ⟨rs ++ [⟨5, (n % U32_MOD + 1) % U32_MOD⟩], ?_⟩
    rw [Function.iterate_succ_apply', hrs]
    show (m_send_message_generic env0
      [{ fr0 with message_id := n % U32_MOD, receipts := rs }] 0 0 1).2.1 = _
    rw [send_step_state]
    have hmod : (n % U32_MOD + 1) % U32_MOD = (n + 1) % U32_MOD := by
      conv_rhs => rw [Nat.add_mod]
      norm_num
    rw [hmod]

/-- The id returned by the send after `n` previous sends is
`(n + 1) % 2^32`. -/
theorem send_ret_iter (n : Nat) :
    send_ret env0 ((send_step env0)^[n] fl0) = some ((n + 1) % U32_MOD) := by
  obtain ⟨rs, hrs⟩ := send_iter_state n
  rw [hrs]
  show (m_send_message_generic env0
    [{ fr0 with message_id := n % U32_MOD, receipts := rs }] 0 0 1).2.2 = _
  rw [send_step_state]
  have hmod : (n % U32_MOD + 1) % U32_MOD = (n + 1) % U32_MOD := by
    conv_rhs => rw [Nat.add_mod]
    norm_num
  rw [hmod]

/-- Counterexample to claim C3 as stated: `message_id` is a wrapping
`uint32` (`++m->friendlist[f].message_id`, Messenger.c:711).  The first
successful send returns id 1, and after `2^32` further successful sends the
next send returns id 1 again: the id is reused and the sequence is not
strictly increasing (nor is each id one greater than its predecessor at the
wrap). -/
theorem C3_counterexample :
    send_ret env0 fl0 = some 1 ∧
    send_ret env0 ((send_step env0)^[U32_MOD] fl0) = some 1 ∧
    (∀ n : Nat, (m_send_message_generic env0 ((send_step env0)^[n] fl0) 0 0 1).1 = 0) := by
  refine ⟨?_, ?_, ?_⟩
  · have h := send_ret_iter 0
    rw [Function.iterate_zero_apply] at h
    rw [h]
    decide
  · rw [send_ret_iter U32_MOD]
    norm_num [U32_MOD]
  · intro n
    obtain ⟨rs, hrs⟩ := send_iter_state n
    rw [hrs, send_step_state]

/-- A send that returns 0 (success) hands back and stores
`(message_id + 1) % 2^32`. -/
theorem send_zero_spec (env : SendEnv) (fl : List Friend) (n t len : Nat)
    (h0 : (m_send_message_generic env fl n t len).1 = 0) :
    (m_send_message_generic env fl n t len).2.2 =
      some (((fl.getD n emptyFriend).message_id + 1) % U32_MOD) ∧
    ((m_send_message_generic env fl n t len).2.1.getD n emptyFriend).message_id =
      ((fl.getD n emptyFriend).message_id + 1) % U32_MOD := by
  by_cases c1 : t > MESSAGE_ACTION
  · exfalso; simp [m_send_message_generic, c1] at h0
  by_cases c2 : friend_not_valid fl n = true
  · exfalso; simp [m_send_message_generic, c1, c2] at h0
  by_cases c3 : len ≥ MAX_CRYPTO_DATA_SIZE
  · exfalso; simp [m_send_message_generic, c1, c2, c3] at h0
  by_cases c4 : (fl.getD n emptyFriend).status = .online
  case neg =>
    exfalso
    have h4 : ((fl.getD n emptyFriend).status != FriendStatus.online) = true := by
      simpa using c4
    simp only [m_send_message_generic] at h0
    rw [if_neg c1, if_neg c2, if_neg c3, if_pos h4] at h0
    simp at h0
  by_cases c5 : send_dev_loop env (fl.getD n emptyFriend).dev_list 0 (-1) = -1
  · exfalso
    have h5 : (send_dev_loop env (fl.getD n emptyFriend).dev_list 0 (-1) == -1) = true := by
      simpa using c5
    have h4 : ¬ ((fl.getD n emptyFriend).status != FriendStatus.online) = true := by
      simp only [bne_iff_ne, ne_eq, Decidable.not_not]
      exact c4
    simp only [m_send_message_generic] at h0
    rw [if_neg c1, if_neg c2, if_neg c3, if_neg h4, if_pos h5] at h0
    simp at h0
  · have hlt : n < fl.length := friend_valid_lt fl n (by simpa using c2)
    rw [send_success_eq env fl n t len c1 c2 c3 c4 c5]
    exact ⟨rfl, by rw [getD_set_self _ _ _ _ hlt]⟩

/-- Claim C3 amended: `message_id` starts at 0 when the friend record is
created; each successful send stores and returns `(previous + 1) % 2^32`
(the first successful send returns 1); and along a run of successful sends
the returned ids are `1, 2, 3, ...`, strictly increasing and pairwise
distinct as long as fewer than `2^32` successful sends have occurred. -/
theorem C3_message_id_amended :
    (∀ (env : AddEnv) (pk : List Nat) (st : FriendStatus),
      (mkNewFriend env pk st).message_id = 0) ∧
    (∀ (env : SendEnv) (fl : List Friend) (n t len : Nat),
      (m_send_message_generic env fl n t len).1 = 0 →
      (m_send_message_generic env fl n t len).2.2 =
        some (((fl.getD n emptyFriend).message_id + 1) % U32_MOD) ∧
      ((m_send_message_generic env fl n t len).2.1.getD n emptyFriend).message_id =
        ((fl.getD n emptyFriend).message_id + 1) % U32_MOD) ∧
    (∀ k : Nat, 1 ≤ k → k < U32_MOD →
      send_ret env0 ((send_step env0)^[k - 1] fl0) = some k) := by
  refine ⟨fun _ _ _ => rfl, send_zero_spec, ?_⟩
  intro k hk1 hk2
  rw [send_ret_iter (k - 1), Nat.sub_add_cancel hk1, Nat.mod_eq_of_lt hk2]

/-- Witness for the amended C3: a fresh record has id 0, the first send
returns the incremented id, and the second send in the scenario returns 2. -/
theorem C3_message_id_amended_witness :
    (mkNewFriend envA [] .added).message_id = 0 ∧
    (m_send_message_generic env0 fl0 0 0 1).2.2 =
      some (((fl0.getD 0 emptyFriend).message_id + 1) % U32_MOD) ∧
    send_ret env0 ((send_step env0)^[2 - 1] fl0) = some 2 :=
  ⟨C3_message_id_amended.1 envA [] .added,
   (C3_message_id_amended.2.1 env0 fl0 0 0 1 (by decide)).1,
   C3_message_id_amended.2.2 2 (by decide) (by decide)⟩

/-! Claim C1: the chunk-request loop. -/

/-- Counterexample to claim C1 as stated: with transfer 0 Transferring and
unpaused (no outstanding requests) and transfer 1 active with 5 outstanding
requests, and a transport budget of `MIN_SLOTS_FREE + 3` free slots, the
code grants transfer 0 three chunk requests (each active transfer's
`slots_allocated` is deducted only when the loop reaches it,
Messenger.c:1704-1708), whereas the claim's up-front subtraction of every
active transfer's `slots_allocated` leaves a zero budget and no requests. -/
theorem C1_counterexample :
    (do_reqchunk_filecb envC1 frC1).2 =
      [.reqchunk 0 0 1371, .reqchunk 0 1371 1371, .reqchunk 0 2742 1371] ∧
    do_reqchunk_claim envC1 frC1 = [] ∧
    (do_reqchunk_filecb envC1 frC1).2 ≠ do_reqchunk_claim envC1 frC1 := by
  refine ⟨by decide, by decide, ?_⟩
  intro h
  rw [(by decide : do_reqchunk_claim envC1 frC1 = [])] at h
  exact absurd ((by decide : (do_reqchunk_filecb envC1 frC1).2 =
    [.reqchunk 0 0 1371, .reqchunk 0 1371 1371, .reqchunk 0 2742 1371]).symm.trans h)
    (by decide)

/-- On a Transferring, unpaused transfer the embedded inner loop agrees
with the amended claim's request loop. -/
theorem while_eq (env : ChunkEnv) (i : Nat) : ∀ (free : Nat) (ft : FileTransfer),
    ft.status = .transferring → ft.paused = FILE_PAUSE_NOT →
    reqchunk_while env i ft free = amended_while env i ft free := by
  intro free
  induction free with
  | zero =>
    intro ft hst hp
    have hguard : (!(ft.status == FileStatus.transferring &&
        ft.paused == FILE_PAUSE_NOT)) = false := by
      simp [hst, hp, FILE_PAUSE_NOT]
    simp only [reqchunk_while, amended_while, hguard, Bool.false_eq_true, if_false]
    split <;> rfl
  | succ f ih =>
    intro ft hst hp
    have hguard : (!(ft.status == FileStatus.transferring &&
        ft.paused == FILE_PAUSE_NOT)) = false := by
      simp [hst, hp, FILE_PAUSE_NOT]
    simp only [reqchunk_while, amended_while, hguard, Bool.false_eq_true, if_false]
    by_cases hms : env.max_speed
    · rw [if_pos hms, if_pos hms]
    · rw [if_neg hms, if_neg hms]
      by_cases h0 : ft.size = 0
      · rw [if_pos (show (ft.size == 0) = true by simp [h0]),
            if_pos (show ft.size = 0 from h0)]
      · rw [if_neg (show ¬ (ft.size == 0) = true by simp [h0]),
            if_neg (show ¬ ft.size = 0 from h0)]
        by_cases heq : ft.size = ft.requested
        · rw [if_pos (show (ft.size == ft.requested) = true by simp [heq]),
              if_pos (show ft.requested = ft.size from heq.symm)]
        · rw [if_neg (show ¬ (ft.size == ft.requested) = true by simp [heq]),
              if_neg (show ¬ ft.requested = ft.size from fun hc => heq hc.symm)]
          have hlen : (if u64sub ft.size ft.requested < MAX_FILE_DATA_SIZE then
              u64sub ft.size ft.requested else MAX_FILE_DATA_SIZE) =
              min MAX_FILE_DATA_SIZE (u64sub ft.size ft.requested) := by
            rcases Nat.lt_or_ge (u64sub ft.size ft.requested) MAX_FILE_DATA_SIZE with h | h
            · rw [if_pos h, Nat.min_eq_right (Nat.le_of_lt h)]
            · rw [if_neg (by omega), Nat.min_eq_left h]
          rw [hlen]
          rw [ih { ft with
                   slots_allocated := ft.slots_allocated + 1
                   requested := (ft.requested +
                     MAX_FILE_DATA_SIZE ⊓ u64sub ft.size ft.requested) % U64_MOD }
              hst hp]

/-- The inner loop does nothing on a transfer that is not Transferring and
unpaused. -/
theorem while_noop (env : ChunkEnv) (i : Nat) (ft : FileTransfer) (free : Nat)
    (h : ¬ (ft.status = .transferring ∧ ft.paused = FILE_PAUSE_NOT)) :
    reqchunk_while env i ft free = (ft, free, []) := by
  have hb : (ft.status == FileStatus.transferring &&
      ft.paused == FILE_PAUSE_NOT) = false := by
    by_contra hc
    rw [Bool.not_eq_false, Bool.and_eq_true, beq_iff_eq, beq_iff_eq] at hc
    exact h hc
  cases free with
  | zero => simp only [reqchunk_while, hb, Bool.not_false, if_true]
  | succ f => simp only [reqchunk_while, hb, Bool.not_false, if_true]

/-- An active head counts into `countActive`. -/
theorem countActive_cons_active (ft : FileTransfer) (rest : List FileTransfer)
    (h : ft.status ≠ .fsNone) :
    countActive (ft :: rest) = countActive rest + 1 := by
  simp only [countActive, List.filter_cons]
  rw [if_pos (by simpa using h)]
  simp [Nat.add_comm]

/-- A free head does not count into `countActive`. -/
theorem countActive_cons_inactive (ft : FileTransfer) (rest : List FileTransfer)
    (h : ft.status = .fsNone) :
    countActive (ft :: rest) = countActive rest := by
  simp only [countActive, List.filter_cons]
  rw [if_neg (by simp [h])]

/-- The amended outer loop is inert on a suffix with no active slots. -/
theorem amended_inactive (env : ChunkEnv) : ∀ (rest : List FileTransfer) (j free : Nat),
    countActive rest = 0 → amended_outer env rest j free = (rest, []) := by
  intro rest
  induction rest with
  | nil => intro j free _; rfl
  | cons ft r ih =>
    intro j free h
    have hft : ft.status = .fsNone := by
      by_contra hc
      rw [countActive_cons_active ft r hc] at h
      omega
    have hr : countActive r = 0 := by
      rw [countActive_cons_inactive ft r hft] at h
      exact h
    simp only [amended_outer]
    rw [if_neg (show ¬ (ft.status != FileStatus.fsNone) = true by simp [hft])]
    rw [if_neg (show ¬ (ft.status == FileStatus.transferring &&
        ft.paused == FILE_PAUSE_NOT) = true by
      simp only [Bool.and_eq_true, beq_iff_eq]
      rintro ⟨h1, -⟩
      rw [hft] at h1
      exact absurd h1 (by decide))]
    rw [ih (j + 1) free hr]

/-- The code's saturating budget charge is the floored `Nat` subtraction. -/
theorem charge_eq (a f : Nat) : (if a > f then 0 else f - a) = f - a := by
  rcases Nat.lt_or_ge f a with h | h
  · rw [if_pos h]; omega
  · rw [if_neg (by omega)]

/-- Extending a take by one picks up the element at the boundary. -/
theorem take_succ_getD {α : Type} (l : List α) (i : Nat) (d : α) (h : i < l.length) :
    l.take (i + 1) = l.take i ++ [l.getD i d] := by
  induction l generalizing i with
  | nil => simp at h
  | cons x xs ih =>
    cases i with
    | zero => simp [List.getD]
    | succ j =>
      simp only [List.take_succ_cons, List.getD_cons_succ, List.cons_append]
      rw [← ih j (by simpa using h)]

/-- Taking past an updated position picks up the new value. -/
theorem take_succ_set {α : Type} (l : List α) (i : Nat) (v d : α) (h : i < l.length) :
    (l.set i v).take (i + 1) = l.take i ++ [v] := by
  rw [take_succ_getD (l.set i v) i d (by simpa using h)]
  rw [getD_set_self _ _ _ _ h]
  congr 1
  induction l generalizing i with
  | nil => simp at h
  | cons x xs ih =>
    cases i with
    | zero => simp
    | succ j =>
      simp only [List.set, List.take_succ_cons]
      rw [ih j (by simpa using h)]

/-- Dropping past an updated position forgets the update. -/
theorem drop_succ_set {α : Type} (l : List α) (i : Nat) (v : α) :
    (l.set i v).drop (i + 1) = l.drop (i + 1) := by
  rw [List.drop_set, if_pos (by omega)]

/-- One step of the embedded outer loop over a free slot: no budget charge,
no requests, continue (or stop when no active slots remain). -/
theorem reqchunk_outer_succ_inactive (count : Nat) (env : ChunkEnv)
    (fs : List FileTransfer) (nsf i free num : Nat)
    (h : (fs.getD i emptyFT).status = .fsNone) :
    reqchunk_outer env (count + 1) fs nsf i free num =
      if num == 0 then (fs.set i (fs.getD i emptyFT), nsf, [])
      else reqchunk_outer env count (fs.set i (fs.getD i emptyFT)) nsf (i + 1) free num := by
  simp only [reqchunk_outer]
  rw [if_neg (show ¬ ((fs.getD i emptyFT).status != FileStatus.fsNone) = true by
    simp only [bne_iff_ne, ne_eq, Decidable.not_not]
    exact h)]
  rw [while_noop env i _ _ (by
    rintro ⟨h1, -⟩
    rw [h] at h1
    exact absurd h1 (by decide))]
  split <;> simp

/-- One step of the embedded outer loop over an active slot that is not
requesting (not Finished, and not Transferring-unpaused): charge its
outstanding requests against the budget and continue. -/
theorem reqchunk_outer_succ_noop (count : Nat) (env : ChunkEnv)
    (fs : List FileTransfer) (nsf i free num : Nat)
    (hact : (fs.getD i emptyFT).status ≠ .fsNone)
    (hfin : (fs.getD i emptyFT).status ≠ .finished)
    (hnr : ¬ ((fs.getD i emptyFT).status = .transferring ∧
        (fs.getD i emptyFT).paused = FILE_PAUSE_NOT)) :
    reqchunk_outer env (count + 1) fs nsf i free num =
      if (num - 1) == 0 then (fs.set i (fs.getD i emptyFT), nsf, [])
      else reqchunk_outer env count (fs.set i (fs.getD i emptyFT)) nsf (i + 1)
        (free - (fs.getD i emptyFT).slots_allocated) (num - 1) := by
  simp only [reqchunk_outer]
  rw [if_pos (show ((fs.getD i emptyFT).status != FileStatus.fsNone) = true by
    simp only [bne_iff_ne, ne_eq]
    exact hact)]
  rw [if_neg (show ¬ ((fs.getD i emptyFT).status == FileStatus.finished &&
      env.acked (fs.getD i emptyFT).last_packet_number) = true by
    simp only [Bool.and_eq_true, beq_iff_eq]
    rintro ⟨h1, -⟩
    exact hfin h1)]
  rw [charge_eq]
  rw [while_noop env i _ _ hnr]
  split <;> simp

/-- One step of the embedded outer loop over a Transferring, unpaused slot:
charge its outstanding requests, then run the request loop (stated through
the amended loop, equal by `while_eq`). -/
theorem reqchunk_outer_succ_run (count : Nat) (env : ChunkEnv)
    (fs : List FileTransfer) (nsf i free num : Nat)
    (hst : (fs.getD i emptyFT).status = .transferring)
    (hp : (fs.getD i emptyFT).paused = FILE_PAUSE_NOT) :
    reqchunk_outer env (count + 1) fs nsf i free num =
      if (num - 1) == 0 then
        (fs.set i ((amended_while env i (fs.getD i emptyFT)
           (free - (fs.getD i emptyFT).slots_allocated)).1), nsf,
         (amended_while env i (fs.getD i emptyFT)
           (free - (fs.getD i emptyFT).slots_allocated)).2.2)
      else
        ((reqchunk_outer env count
           (fs.set i ((amended_while env i (fs.getD i emptyFT)
             (free - (fs.getD i emptyFT).slots_allocated)).1)) nsf (i + 1)
           ((amended_while env i (fs.getD i emptyFT)
             (free - (fs.getD i emptyFT).slots_allocated)).2.1) (num - 1)).1,
         (reqchunk_outer env count
           (fs.set i ((amended_while env i (fs.getD i emptyFT)
             (free - (fs.getD i emptyFT).slots_allocated)).1)) nsf (i + 1)
           ((amended_while env i (fs.getD i emptyFT)
             (free - (fs.getD i emptyFT).slots_allocated)).2.1) (num - 1)).2.1,
         (amended_while env i (fs.getD i emptyFT)
           (free - (fs.getD i emptyFT).slots_allocated)).2.2 ++
         (reqchunk_outer env count
           (fs.set i ((amended_while env i (fs.getD i emptyFT)
             (free - (fs.getD i emptyFT).slots_allocated)).1)) nsf (i + 1)
           ((amended_while env i (fs.getD i emptyFT)
             (free - (fs.getD i emptyFT).slots_allocated)).2.1) (num - 1)).2.2) := by
  simp only [reqchunk_outer]
  rw [if_pos (show ((fs.getD i emptyFT).status != FileStatus.fsNone) = true by
    simp only [bne_iff_ne, ne_eq]
    rw [hst]
    decide)]
  rw [if_neg (show ¬ ((fs.getD i emptyFT).status == FileStatus.finished &&
      env.acked (fs.getD i emptyFT).last_packet_number) = true by
    simp only [Bool.and_eq_true, beq_iff_eq]
    rintro ⟨h1, -⟩
    rw [hst] at h1
    exact absurd h1 (by decide))]
  rw [charge_eq]
  rw [while_eq env i _ _ hst hp]
  split <;> simp

/-- One step of the amended outer loop over a free slot. -/
theorem amended_outer_cons_inactive (env : ChunkEnv) (ft : FileTransfer)
    (rest : List FileTransfer) (i free : Nat) (h : ft.status = .fsNone) :
    amended_outer env (ft :: rest) i free =
      (ft :: (amended_outer env rest (i + 1) free).1,
       (amended_outer env rest (i + 1) free).2) := by
  simp only [amended_outer]
  rw [if_neg (show ¬ (ft.status != FileStatus.fsNone) = true by
    simp only [bne_iff_ne, ne_eq, Decidable.not_not]
    exact h)]
  rw [if_neg (show ¬ (ft.status == FileStatus.transferring &&
      ft.paused == FILE_PAUSE_NOT) = true by
    simp only [Bool.and_eq_true, beq_iff_eq]
    rintro ⟨h1, -⟩
    rw [h] at h1
    exact absurd h1 (by decide))]

/-- One step of the amended outer loop over an active, non-requesting
slot. -/
theorem amended_outer_cons_noop (env : ChunkEnv) (ft : FileTransfer)
    (rest : List FileTransfer) (i free : Nat) (hact : ft.status ≠ .fsNone)
    (hnr : ¬ (ft.status = .transferring ∧ ft.paused = FILE_PAUSE_NOT)) :
    amended_outer env (ft :: rest) i free =
      (ft :: (amended_outer env rest (i + 1) (free - ft.slots_allocated)).1,
       (amended_outer env rest (i + 1) (free - ft.slots_allocated)).2) := by
  simp only [amended_outer]
  rw [if_pos (show (ft.status != FileStatus.fsNone) = true by
    simp only [bne_iff_ne, ne_eq]
    exact hact)]
  rw [if_neg (show ¬ (ft.status == FileStatus.transferring &&
      ft.paused == FILE_PAUSE_NOT) = true by
    simp only [Bool.and_eq_true, beq_iff_eq]
    exact fun hc => hnr hc)]

/-- One step of the amended outer loop over a Transferring, unpaused
slot. -/
theorem amended_outer_cons_run (env : ChunkEnv) (ft : FileTransfer)
    (rest : List FileTransfer) (i free : Nat)
    (hst : ft.status = .transferring) (hp : ft.paused = FILE_PAUSE_NOT) :
    amended_outer env (ft :: rest) i free =
      ((amended_while env i ft (free - ft.slots_allocated)).1 ::
        (amended_outer env rest (i + 1)
          (amended_while env i ft (free - ft.slots_allocated)).2.1).1,
       (amended_while env i ft (free - ft.slots_allocated)).2.2 ++
        (amended_outer env rest (i + 1)
          (amended_while env i ft (free - ft.slots_allocated)).2.1).2) := by
  simp only [amended_outer]
  rw [if_pos (show (ft.status != FileStatus.fsNone) = true by
    simp only [bne_iff_ne, ne_eq]
    rw [hst]
    decide)]
  rw [if_pos (show (ft.status == FileStatus.transferring &&
      ft.paused == FILE_PAUSE_NOT) = true by
    simp only [Bool.and_eq_true, beq_iff_eq]
    exact ⟨hst, hp⟩)]

/-- The embedded outer loop from slot `i` equals the amended outer loop on
the slot suffix, provided no slot is Finished (no reaping) and the
remaining-active counter is accurate. -/
theorem reqchunk_bridge (env : ChunkEnv) : ∀ (count : Nat) (fs : List FileTransfer)
    (nsf i free : Nat),
    fs.length = i + count →
    (∀ ft ∈ fs.drop i, ft.status ≠ .finished) →
    reqchunk_outer env count fs nsf i free (countActive (fs.drop i)) =
      (fs.take i ++ (amended_outer env (fs.drop i) i free).1, nsf,
       (amended_outer env (fs.drop i) i free).2) := by
  intro count
  induction count with
  | zero =>
    intro fs nsf i free hlen hfin
    have hdrop : fs.drop i = [] := List.drop_eq_nil_of_le (by omega)
    rw [hdrop]
    simp only [reqchunk_outer, amended_outer]
    rw [List.take_of_length_le (by omega)]
    simp
  | succ count ihc =>
    intro fs nsf i free hlen hfin
    have hi : i < fs.length := by omega
    have hdrop : fs.drop i = fs.getD i emptyFT :: fs.drop (i + 1) :=
      drop_getD_cons fs i emptyFT hi
    have hfin_i : (fs.getD i emptyFT).status ≠ .finished := by
      apply hfin
      rw [hdrop]
      exact List.mem_cons_self _ _
    have hfin' : ∀ ft ∈ fs.drop (i + 1), ft.status ≠ .finished := by
      intro ft hft
      apply hfin
      rw [hdrop]
      exact List.mem_cons_of_mem _ hft
    by_cases hact : (fs.getD i emptyFT).status = .fsNone
    · -- free slot: no charge, no requests
      have hnum : countActive (fs.drop i) = countActive (fs.drop (i + 1)) := by
        rw [hdrop, countActive_cons_inactive _ _ hact]
      rw [reqchunk_outer_succ_inactive count env fs nsf i free _ hact]
      rw [set_getD_self fs i emptyFT hi]
      conv_rhs => rw [hdrop]
      rw [amended_outer_cons_inactive env _ _ i free hact]
      rw [hnum]
      by_cases hz : countActive (fs.drop (i + 1)) = 0
      · rw [if_pos (by simp [hz])]
        rw [amended_inactive env _ (i + 1) free hz]
        rw [← hdrop]
        rw [List.take_append_drop]
      · rw [if_neg (by simp [hz])]
        rw [ihc fs nsf (i + 1) free (by omega) hfin']
        rw [take_succ_getD fs i emptyFT hi]
        simp
    · by_cases hrun : (fs.getD i emptyFT).status = .transferring ∧
          (fs.getD i emptyFT).paused = FILE_PAUSE_NOT
      · -- transferring and unpaused: charge, then request chunks
        have hca : countActive (fs.drop i) = countActive (fs.drop (i + 1)) + 1 := by
          rw [hdrop, countActive_cons_active _ _ hact]
        rw [reqchunk_outer_succ_run count env fs nsf i free _ hrun.1 hrun.2]
        rw [hca]
        simp only [Nat.add_sub_cancel]
        conv_rhs => rw [hdrop]
        rw [amended_outer_cons_run env _ _ i free hrun.1 hrun.2]
        by_cases hz : countActive (fs.drop (i + 1)) = 0
        · rw [if_pos (by simp [hz])]
          rw [amended_inactive env _ (i + 1) _ hz]
          rw [List.set_eq_take_cons_drop _ hi]
          simp
        · rw [if_neg (by simp [hz])]
          have hlen2 : (fs.set i ((amended_while env i (fs.getD i emptyFT)
              (free - (fs.getD i emptyFT).slots_allocated)).1)).length = (i + 1) + count := by
            rw [List.length_set]; omega
          have hfin2 : ∀ ft ∈ (fs.set i ((amended_while env i (fs.getD i emptyFT)
              (free - (fs.getD i emptyFT).slots_allocated)).1)).drop (i + 1),
              ft.status ≠ .finished := by
            rw [drop_succ_set]
            exact hfin'
          have hdrop2 : (fs.set i ((amended_while env i (fs.getD i emptyFT)
              (free - (fs.getD i emptyFT).slots_allocated)).1)).drop (i + 1) =
              fs.drop (i + 1) := drop_succ_set fs i _
          have hIH := ihc (fs.set i ((amended_while env i (fs.getD i emptyFT)
              (free - (fs.getD i emptyFT).slots_allocated)).1)) nsf (i + 1)
            ((amended_while env i (fs.getD i emptyFT)
              (free - (fs.getD i emptyFT).slots_allocated)).2.1) hlen2 hfin2
          rw [hdrop2] at hIH
          rw [hIH]
          rw [take_succ_set fs i _ emptyFT hi]
          simp
      · -- active but not requesting (not accepted, or paused)
        have hca : countActive (fs.drop i) = countActive (fs.drop (i + 1)) + 1 := by
          rw [hdrop, countActive_cons_active _ _ hact]
        rw [reqchunk_outer_succ_noop count env fs nsf i free _ hact hfin_i hrun]
        rw [set_getD_self fs i emptyFT hi]
        rw [hca]
        simp only [Nat.add_sub_cancel]
        conv_rhs => rw [hdrop]
        rw [amended_outer_cons_noop env _ _ i free hact hrun]
        by_cases hz : countActive (fs.drop (i + 1)) = 0
        · rw [if_pos (by simp [hz])]
          rw [amended_inactive env _ (i + 1) _ hz]
          rw [← hdrop]
          rw [List.take_append_drop]
        · rw [if_neg (by simp [hz])]
          rw [ihc fs nsf (i + 1) _ (by omega) hfin']
          rw [take_succ_getD fs i emptyFT hi]
          simp

/-- Claim C1 amended: the chunk-request pass starts from the budget
`max (0, transport_free_slots - MIN_SLOTS_FREE)` and deducts each active
transfer's `slots_allocated` when the loop visits that transfer (not all up
front); each Transferring, unpaused transfer then requests, while the
budget is positive and max speed is not signalled, chunks of
`min (MAX_FILE_DATA_SIZE, size - requested)` at position `requested`,
bumping `requested` and `slots_allocated` and spending one budget slot per
request, with a single zero-length data packet for an empty file.  Stated
as equality with the amended-spec algorithm on states with no Finished
slots (reaping is a separate concern the claim does not mention) and an
accurate `num_sending_files` counter. -/
theorem C1_chunk_loop_amended (env : ChunkEnv) (fr : Friend)
    (hlen : fr.file_sending.length = MAX_CONCURRENT_FILE_PIPES)
    (hfin : ∀ ft ∈ fr.file_sending, ft.status ≠ .finished)
    (hnum : fr.num_sending_files = countActive fr.file_sending) :
    do_reqchunk_filecb env fr = do_reqchunk_amended env fr := by
  simp only [do_reqchunk_filecb, do_reqchunk_amended]
  by_cases h0 : fr.num_sending_files = 0
  · have hc : ((fr.num_sending_files == 0) = true) := by simp [h0]
    rw [if_pos hc, if_pos hc]
  · have hc : ¬ ((fr.num_sending_files == 0) = true) := by simp [h0]
    rw [if_neg hc, if_neg hc]
    have hfree : (if env.free_slots < MIN_SLOTS_FREE then 0
        else env.free_slots - MIN_SLOTS_FREE) = env.free_slots - MIN_SLOTS_FREE := by
      by_cases h : env.free_slots < MIN_SLOTS_FREE
      · rw [if_pos h]
        omega
      · rw [if_neg h]
    rw [hfree]
    have hb := reqchunk_bridge env MAX_CONCURRENT_FILE_PIPES fr.file_sending
      fr.num_sending_files 0 (env.free_slots - MIN_SLOTS_FREE)
      (by simpa using hlen) (by simpa using hfin)
    rw [List.drop_zero] at hb
    rw [← hnum] at hb
    rw [hb]
    simp

/-- Witness for the amended C1 at the concrete two-transfer fixture. -/
theorem C1_chunk_loop_amended_witness :
    do_reqchunk_filecb envC1 frC1 = do_reqchunk_amended envC1 frC1 :=
  C1_chunk_loop_amended envC1 frC1 (by decide) (by decide) (by decide)

end Tox
